import Mathlib

/-!
Verification development for the HealthFlow medication-ai-engine.

The Python sources under src/ are shallowly embedded below:
pure functions become Lean functions, Python dicts become association
lists or update-functions, Python floats become rationals, Python sets
become duplicate-free lists in insertion order, and fallible lookups
return Option.  Wall-clock timestamp fields (created_at and so on) are
omitted: they are not part of the functional state.
-/

namespace MedEngine

/-! ## Python-style string utilities
These model the exact string operations used by the sources:
str.lower (ASCII inputs), substring membership (the in operator),
str.split() followed by a single-space join, and code-point
lexicographic comparison. -/

/-- ASCII lowercase of one character, as CPython does for ASCII input. -/
def pyLowerChar (c : Char) : Char :=
  if 'A' ≤ c ∧ c ≤ 'Z' then Char.ofNat (c.toNat + 32) else c

/-- Python str.lower for the ASCII strings appearing in the rule tables. -/
def pyLower (s : String) : String :=
  ⟨s.data.map pyLowerChar⟩

/-- Whether the second char list starts with the first. -/
def chLead : List Char → List Char → Bool
  | [], _ => true
  | _ :: _, [] => false
  | a :: as, b :: bs => a == b && chLead as bs

/-- Case-insensitive version of chLead (both sides ASCII-lowered). -/
def chLeadCI (pre l : List Char) : Bool :=
  chLead (pre.map pyLowerChar) (l.map pyLowerChar)

/-- Helper scan for substring membership. -/
def chInfix (needle : List Char) : List Char → Bool
  | [] => chLead needle []
  | c :: cs => chLead needle (c :: cs) || chInfix needle cs

/-- Python substring membership: needle in hay. -/
def strIn (needle hay : String) : Bool :=
  chInfix needle.data hay.data

/-- Python code-point comparison s <= t (lexicographic on code points). -/
def charsLe : List Char → List Char → Bool
  | [], _ => true
  | _ :: _, [] => false
  | a :: as, b :: bs =>
    if a.toNat < b.toNat then true
    else if b.toNat < a.toNat then false
    else charsLe as bs

/-- Python string comparison s <= t. -/
def strLeB (s t : String) : Bool :=
  charsLe s.data t.data

/-- Python str.isspace-style whitespace test (ASCII forms used here). -/
def isWs (c : Char) : Bool :=
  c == ' ' || c == '\t' || c == '\n' || c == '\r'

/-- Python character class \d. -/
def isDigitCh (c : Char) : Bool :=
  '0' ≤ c && c ≤ '9'

/-- Python character class \w (ASCII fragment: letters, digits, underscore). -/
def isWordCh (c : Char) : Bool :=
  ('a' ≤ c && c ≤ 'z') || ('A' ≤ c && c ≤ 'Z') || isDigitCh c || c == '_'

/-- Split a char list on whitespace runs (Python str.split()). -/
def splitWsGo : List Char → List Char → List (List Char)
  | cur, [] => if cur = [] then [] else [cur.reverse]
  | cur, c :: cs =>
    if isWs c then
      if cur = [] then splitWsGo [] cs else cur.reverse :: splitWsGo [] cs
    else splitWsGo (c :: cur) cs

/-- Join char-list words with a single space. -/
def joinSpace : List (List Char) → List Char
  | [] => []
  | [w] => w
  | w :: ws => w ++ ' ' :: joinSpace ws

/-- Python idiom: a single space joining name.split(). -/
def collapseWs (s : String) : String :=
  ⟨joinSpace (splitWsGo [] s.data)⟩

/-- Python ", ".join(items). -/
def joinCommaSpace : List String → String
  | [] => ""
  | [s] => s
  | s :: rest => s ++ ", " ++ joinCommaSpace rest

/-- Python str.strip() (ASCII whitespace). -/
def pyStrip (s : String) : String :=
  ⟨((s.data.dropWhile isWs).reverse.dropWhile isWs).reverse⟩

/-- Python str.isdigit for ASCII content: non-empty and all digits. -/
def pyIsDigitStr (s : String) : Bool :=
  !s.data.isEmpty && s.data.all isDigitCh

/-- Python str.replace(" ", "_"). -/
def replaceSpaceUnderscore (s : String) : String :=
  ⟨s.data.map (fun c => if c == ' ' then '_' else c)⟩

/-- Truthiness of an optional rational (Python: None and 0.0 are falsy). -/
def truthyQ : Option ℚ → Bool
  | none => false
  | some q => q ≠ 0

/-- Truthiness of an optional integer. -/
def truthyI : Option ℤ → Bool
  | none => false
  | some n => n ≠ 0

/-- Truthiness of an optional string (empty string is falsy). -/
def truthyS : Option String → Bool
  | none => false
  | some s => s ≠ ""

/-! ## Regex-substitution engines used by the sources
re.sub scans the subject left to right; at each position it tries the
pattern (alternatives in order), removes the leftmost match and resumes
after it, otherwise keeps the character and advances one position.
Each matcher below consumes at least one character, so the length of the
subject is enough fuel. -/

/-- One re.sub pass: m tries to match at the head and returns the
remainder after the match. -/
def subAll (m : List Char → Option (List Char)) : ℕ → List Char → List Char
  | 0, cs => cs
  | _ + 1, [] => []
  | fuel + 1, c :: cs =>
    match m (c :: cs) with
    | some rest => subAll m fuel rest
    | none => c :: subAll m fuel cs

/-- Try case-insensitive alternatives in order; on a hit return the
remainder. -/
def tryAlts (alts : List (List Char)) (cs : List Char) : Option (List Char) :=
  match alts with
  | [] => none
  | a :: rest => if chLeadCI a cs then some (cs.drop a.length) else tryAlts rest cs

/-- Matcher for the pattern digits+ whitespace* (unit alternative), the
first substitution in DrugClassifier.normalize_drug_name. -/
def matchNumUnit (units : List (List Char)) (cs : List Char) : Option (List Char) :=
  let ds := cs.takeWhile isDigitCh
  if ds.isEmpty then none
  else tryAlts units ((cs.drop ds.length).dropWhile isWs)

/-- Matcher for digits+ ws* slash ws* (form alternative), the second
substitution in DrugClassifier.normalize_drug_name. -/
def matchNumSlashForm (forms : List (List Char)) (cs : List Char) : Option (List Char) :=
  let ds := cs.takeWhile isDigitCh
  if ds.isEmpty then none
  else
    match (cs.drop ds.length).dropWhile isWs with
    | '/' :: rest => tryAlts forms (rest.dropWhile isWs)
    | _ => none

/-- Word-bounded alternative matcher: the char before the match is
accounted for by the caller; here we require the remainder after the
matched word to start with a non-word char (or be empty). -/
def tryWordAlts (alts : List (List Char)) (ci : Bool) (cs : List Char) :
    Option (List Char) :=
  match alts with
  | [] => none
  | a :: rest =>
    if (if ci then chLeadCI a cs else chLead a cs) then
      let after := cs.drop a.length
      match after with
      | [] => some []
      | c :: _ => if isWordCh c then tryWordAlts rest ci cs else some after
    else tryWordAlts rest ci cs

/-- re.sub for a word-bounded alternation: prev is the previous character
of the original subject (none at the start). -/
def subWordAlts (alts : List (List Char)) (ci : Bool) :
    ℕ → Option Char → List Char → List Char
  | 0, _, cs => cs
  | _ + 1, _, [] => []
  | fuel + 1, prev, c :: cs =>
    if (match prev with | none => true | some p => !isWordCh p) then
      match tryWordAlts alts ci (c :: cs) with
      | some rest =>
        -- resume after the removed text; its last char is a word char
        subWordAlts alts ci fuel (some 'a') rest
      | none => c :: subWordAlts alts ci fuel (some c) cs
    else c :: subWordAlts alts ci fuel (some c) cs

/-! ## Data models (src/core/models.py)
Dataclass fields are kept with their source names; datetime metadata
fields are omitted (wall-clock time is outside the embedding). -/

/-- DDISeverity enum. -/
inductive DDISeverity
  | major
  | moderate
  | minor
  | unknown
  deriving DecidableEq, Repr

/-- The .value string of a DDISeverity member. -/
def sevValue : DDISeverity → String
  | .major => "major"
  | .moderate => "moderate"
  | .minor => "minor"
  | .unknown => "unknown"

/-- RenalImpairment enum. -/
inductive RenalImpairment
  | normal
  | mild
  | moderate
  | severe
  | esrd
  deriving DecidableEq, Repr

/-- The .value string of a RenalImpairment member. -/
def renalValue : RenalImpairment → String
  | .normal => "normal"
  | .mild => "mild"
  | .moderate => "moderate"
  | .severe => "severe"
  | .esrd => "esrd"

/-- HepaticImpairment enum. -/
inductive HepaticImpairment
  | nonePresent
  | child_pugh_a
  | child_pugh_b
  | child_pugh_c
  deriving DecidableEq, Repr

/-- DosageForm enum (collapsed listing; the claims only move it around). -/
inductive DosageForm
  | tablet | capsule | syrup | injection | ampoule | cream | gel
  | ointment | drop | suspension | solution | suppository | inhaler
  | patch | powder | other
  deriving DecidableEq, Repr

/-- DosageForm(s) constructor with the ValueError fallback to OTHER used
in load_from_json. -/
def dosageFormOfString (s : String) : DosageForm :=
  if s = "tablet" then .tablet else if s = "capsule" then .capsule
  else if s = "syrup" then .syrup else if s = "injection" then .injection
  else if s = "ampoule" then .ampoule else if s = "cream" then .cream
  else if s = "gel" then .gel else if s = "ointment" then .ointment
  else if s = "drop" then .drop else if s = "suspension" then .suspension
  else if s = "solution" then .solution else if s = "suppository" then .suppository
  else if s = "inhaler" then .inhaler else if s = "patch" then .patch
  else if s = "powder" then .powder else .other

/-- Medication dataclass (datetime fields omitted). -/
structure Medication where
  id : ℤ
  commercial_name : String
  generic_name : Option String := none
  arabic_name : Option String := none
  active_ingredients : List String := []
  strength : Option String := none
  strength_value : Option ℚ := none
  strength_unit : Option String := none
  dosage_form : DosageForm := .other
  package_size : Option String := none
  manufacturer : Option String := none
  atc_code : Option String := none
  eda_registration : Option String := none
  rxnorm_id : Option String := none
  drugbank_id : Option String := none
  is_otc : Bool := false
  is_controlled : Bool := false
  deriving DecidableEq, Repr

/-- DrugInteraction dataclass (datetime omitted). -/
structure DrugInteraction where
  id : Option ℤ := none
  drug1_id : ℤ := 0
  drug2_id : ℤ := 0
  drug1_name : String := ""
  drug2_name : String := ""
  severity : DDISeverity := .unknown
  interaction_type : String := ""
  mechanism : String := ""
  clinical_effect : String := ""
  management : String := ""
  evidence_level : ℤ := 0
  source : String := ""
  deriving DecidableEq, Repr

/-- DosingAdjustment dataclass. -/
structure DosingAdjustment where
  medication_id : ℤ
  medication_name : String
  standard_dose : String
  adjusted_dose : String
  adjustment_reason : String
  impairment_type : String
  impairment_level : String
  gfr_range : Option String := none
  child_pugh_class : Option String := none
  monitoring_required : Bool := false
  monitoring_parameters : List String := []
  contraindicated : Bool := false
  source : String := ""
  deriving DecidableEq, Repr

/-- PatientContext dataclass. -/
structure PatientContext where
  age : Option ℤ := none
  weight_kg : Option ℚ := none
  height_cm : Option ℚ := none
  sex : Option String := none
  serum_creatinine : Option ℚ := none
  gfr : Option ℚ := none
  renal_impairment : RenalImpairment := .normal
  hepatic_impairment : HepaticImpairment := .nonePresent
  child_pugh_score : Option ℤ := none
  allergies : List String := []
  conditions : List String := []
  current_medications : List ℤ := []
  is_pregnant : Bool := false
  is_breastfeeding : Bool := false
  deriving DecidableEq, Repr

/-- PrescriptionItem dataclass. -/
structure PrescriptionItem where
  medication_id : ℤ
  medication_name : String
  dose : String
  frequency : String
  duration : Option String := none
  route : Option String := none
  instructions : Option String := none
  deriving DecidableEq, Repr

/-- Prescription dataclass (datetime omitted). -/
structure Prescription where
  id : String
  patient : PatientContext
  items : List PrescriptionItem
  prescriber_id : Option String := none
  pharmacy_id : Option String := none
  deriving DecidableEq, Repr

/-- ValidationResult dataclass (validation_time_ms and validated_at are
wall-clock metadata and omitted). -/
structure ValidationResult where
  is_valid : Bool
  prescription_id : Option String := none
  medications_validated : ℕ := 0
  interactions : List DrugInteraction := []
  dosing_adjustments : List DosingAdjustment := []
  contraindications : List String := []
  warnings : List String := []
  recommendations : List String := []
  deriving DecidableEq, Repr

/-! ## Stable sorting
Python list.sort(key=k, reverse=True) produces the unique permutation
that is descending in the key and keeps the original relative order of
equal keys.  The insertion sort below produces exactly that permutation:
a later element is inserted after every element whose key is greater
than or equal to its own.  le a b reads: a sorts at or after b. -/

/-- Insert x after the elements it must follow. -/
def insertLe (le : α → α → Bool) (x : α) : List α → List α
  | [] => [x]
  | y :: ys => if le x y then y :: insertLe le x ys else x :: y :: ys

/-- Stable sort: fold the list into place left to right. -/
def stableSortBy (le : α → α → Bool) (l : List α) : List α :=
  l.foldl (fun acc x => insertLe le x acc) []

/-! ## Dosing engine (src/dosing/calculator.py)
Floats are modelled as rationals; round(x, 1) and the .0f format use
round-half-to-even as CPython does.  The CKD-EPI variant and the
Child-Pugh calculator involve irrational powers and are not referenced
by any claim, so they are not embedded. -/

/-- Round half to even, CPython round(). -/
def roundHalfEven (q : ℚ) : ℤ :=
  let f := ⌊q⌋
  let r := q - (f : ℚ)
  if r < 1 / 2 then f
  else if 1 / 2 < r then f + 1
  else if f % 2 = 0 then f else f + 1

/-- Python round(x, 1). -/
def round1 (q : ℚ) : ℚ :=
  (roundHalfEven (10 * q) : ℚ) / 10

/-- GFRCalculator.cockcroft_gault. -/
def cockcroft_gault (age : ℤ) (weight_kg serum_creatinine : ℚ)
    (is_female : Bool) : ℚ :=
  if serum_creatinine ≤ 0 then 0
  else
    let crcl := ((140 - (age : ℚ)) * weight_kg) / (72 * serum_creatinine)
    let crcl := if is_female then crcl * 0.85 else crcl
    round1 crcl

/-- GFRCalculator.classify_renal_function. -/
def classify_renal_function (gfr : ℚ) : RenalImpairment :=
  if gfr ≥ 90 then .normal
  else if gfr ≥ 60 then .mild
  else if gfr ≥ 30 then .moderate
  else if gfr ≥ 15 then .severe
  else .esrd

/-- RENAL_DOSING_RULES: drug key to (renal level, dose text, notes). -/
def RENAL_DOSING_RULES : List (String × List (RenalImpairment × String × String)) :=
  [ ("amoxicillin",
      [ (.moderate, "250-500mg q12h", "Extend interval")
      , (.severe, "250-500mg q24h", "Once daily dosing")
      , (.esrd, "250-500mg q24h + post-HD dose", "Dialyzable - give after HD") ])
  , ("ciprofloxacin",
      [ (.moderate, "250-500mg q12h", "Reduce dose or extend interval")
      , (.severe, "250-500mg q18-24h", "Significant reduction needed")
      , (.esrd, "250-500mg q24h", "Give after dialysis") ])
  , ("levofloxacin",
      [ (.moderate, "250-500mg q24h", "Standard interval, may reduce dose")
      , (.severe, "250mg q24-48h", "Reduce dose and extend interval")
      , (.esrd, "250mg q48h", "Post-dialysis dosing") ])
  , ("gentamicin",
      [ (.mild, "Use traditional dosing with monitoring", "Monitor levels closely")
      , (.moderate, "Extend interval to q24-36h", "TDM required")
      , (.severe, "Extend interval to q48h", "TDM required - nephrotoxic")
      , (.esrd, "Re-dose based on levels after HD", "TDM required") ])
  , ("vancomycin",
      [ (.mild, "15-20mg/kg q12h", "Monitor trough levels")
      , (.moderate, "15-20mg/kg q24-48h", "TDM required")
      , (.severe, "15-20mg/kg q48-72h", "TDM required")
      , (.esrd, "15-25mg/kg loading, then based on levels", "Give after HD") ])
  , ("metronidazole",
      [ (.severe, "Reduce dose by 50%", "Active metabolite accumulates")
      , (.esrd, "Reduce dose by 50%", "Not dialyzable") ])
  , ("atenolol",
      [ (.moderate, "25-50mg daily", "Reduce dose")
      , (.severe, "25mg daily or every other day", "Significant reduction")
      , (.esrd, "25-50mg after HD", "Dialyzable") ])
  , ("digoxin",
      [ (.mild, "0.125-0.25mg daily", "Monitor levels")
      , (.moderate, "0.0625-0.125mg daily", "Reduce dose significantly")
      , (.severe, "0.0625mg daily or every other day", "High toxicity risk")
      , (.esrd, "0.0625mg 3x/week", "Not dialyzable - very careful dosing") ])
  , ("lisinopril",
      [ (.moderate, "Start 2.5-5mg daily", "Titrate carefully")
      , (.severe, "Start 2.5mg daily", "May accumulate - watch K+")
      , (.esrd, "Start 2.5mg daily", "Dialyzable") ])
  , ("spironolactone",
      [ (.moderate, "Use with caution - monitor K+", "Risk of hyperkalemia")
      , (.severe, "Avoid if possible", "High hyperkalemia risk")
      , (.esrd, "Contraindicated", "Severe hyperkalemia risk") ])
  , ("morphine",
      [ (.moderate, "Reduce dose by 25-50%", "Active metabolite accumulates")
      , (.severe, "Reduce dose by 50-75%", "Use with extreme caution")
      , (.esrd, "Avoid - use fentanyl or hydromorphone", "Metabolite causes toxicity") ])
  , ("gabapentin",
      [ (.mild, "300-600mg TID", "May need adjustment")
      , (.moderate, "200-300mg BID", "Reduce dose")
      , (.severe, "100-300mg daily", "Significant reduction")
      , (.esrd, "100-300mg post-HD", "Give after dialysis") ])
  , ("nsaid",
      [ (.mild, "Use lowest effective dose for shortest duration", "Monitor renal function")
      , (.moderate, "Avoid if possible", "May worsen renal function")
      , (.severe, "Contraindicated", "High risk of AKI")
      , (.esrd, "Contraindicated", "No renal benefit, cardiovascular risk remains") ])
  , ("metformin",
      [ (.mild, "No adjustment needed", "Monitor renal function")
      , (.moderate, "Max 1000mg daily if GFR 30-45", "Do not start if GFR <45")
      , (.severe, "Contraindicated", "Lactic acidosis risk")
      , (.esrd, "Contraindicated", "Lactic acidosis risk") ])
  , ("glyburide",
      [ (.moderate, "Avoid - use glipizide instead", "Active metabolites accumulate")
      , (.severe, "Contraindicated", "Prolonged hypoglycemia risk")
      , (.esrd, "Contraindicated", "Use insulin") ])
  , ("sitagliptin",
      [ (.moderate, "50mg daily", "Reduce from 100mg")
      , (.severe, "25mg daily", "Further reduction")
      , (.esrd, "25mg daily", "Can be given regardless of HD timing") ])
  , ("enoxaparin",
      [ (.severe, "1mg/kg once daily for treatment", "Reduce prophylaxis to 30mg daily")
      , (.esrd, "Avoid - use UFH", "Unpredictable accumulation") ])
  , ("rivaroxaban",
      [ (.moderate, "15mg daily for AF if GFR 15-50", "Reduce dose")
      , (.severe, "Avoid if GFR <15", "Limited data")
      , (.esrd, "Not recommended", "No data on HD patients") ])
  , ("dabigatran",
      [ (.moderate, "110mg BID if GFR 30-50", "Reduce dose")
      , (.severe, "Contraindicated", "GFR <30")
      , (.esrd, "Contraindicated", "No data") ]) ]

/-- Association-list lookup (Python dict.get on a literal-keyed dict). -/
def alookup (l : List (String × α)) (k : String) : Option α :=
  match l with
  | [] => none
  | (k', v) :: rest => if k' = k then some v else alookup rest k

/-- Lookup of a renal level inside a per-drug entry dict. -/
def levelLookup (entries : List (RenalImpairment × String × String))
    (st : RenalImpairment) : Option (String × String) :=
  (entries.find? (fun e => e.1 = st)).map (·.2)

/-- DosingEngine.calculate_patient_gfr (Python truthiness: None, 0, 0.0
and the empty string are all falsy). -/
def calculate_patient_gfr (p : PatientContext) : Option ℚ :=
  if truthyQ p.gfr then p.gfr
  else
    match p.age, p.weight_kg, p.serum_creatinine, p.sex with
    | some a, some w, some sc, some sx =>
      if a ≠ 0 ∧ w ≠ 0 ∧ sc ≠ 0 ∧ sx ≠ "" then
        some (cockcroft_gault a w sc (sx = "F"))
      else none
    | _, _, _, _ => none

/-- DosingEngine.classify_renal_status. -/
def classify_renal_status (p : PatientContext) : RenalImpairment :=
  if p.renal_impairment ≠ .normal then p.renal_impairment
  else
    match calculate_patient_gfr p with
    | some g => if g ≠ 0 then classify_renal_function g else .normal
    | none => .normal

/-- DosingEngine._find_drug_key: first table key that is a substring of
the lowered commercial name, then of the lowered generic name, then the
special NSAID class check on the commercial name. -/
def find_drug_key (med : Medication) : Option String :=
  let name_lower := pyLower med.commercial_name
  let keys := RENAL_DOSING_RULES.map Prod.fst
  match keys.find? (fun k => strIn k name_lower) with
  | some k => some k
  | none =>
    match
      (if truthyS med.generic_name then
        keys.find? (fun k => strIn k (pyLower (med.generic_name.getD "")))
      else none) with
    | some k => some k
    | none =>
      if ["ibuprofen", "diclofenac", "naproxen", "brufen", "cataflam",
          "voltaren"].any (fun n => strIn n name_lower) then
        some "nsaid"
      else none

/-- DosingEngine._get_monitoring_params. -/
def get_monitoring_params (drug_key : String) (_ : RenalImpairment) :
    List String :=
  (alookup
    [ ("gentamicin", ["Trough and peak levels", "Serum creatinine", "Audiometry if prolonged use"])
    , ("vancomycin", ["Trough levels", "Serum creatinine", "CBC"])
    , ("digoxin", ["Digoxin level", "Potassium", "ECG"])
    , ("metformin", ["Lactic acid if symptomatic", "Serum creatinine", "B12 annually"])
    , ("enoxaparin", ["Anti-Xa levels if monitoring needed", "Platelets", "Signs of bleeding"])
    , ("spironolactone", ["Potassium", "Sodium", "Serum creatinine"])
    , ("lisinopril", ["Potassium", "Serum creatinine", "Blood pressure"]) ]
    drug_key).getD ["Serum creatinine", "Electrolytes"]

/-- Python format f-string piece GFR: {gfr:.0f} mL/min. -/
def gfrRangeText (g : ℚ) : String :=
  "GFR: " ++ toString (roundHalfEven g) ++ " mL/min"

/-- The contraindication inference on a rule text. -/
def doseTextFlag (t : String) : Bool :=
  strIn "contraindicated" (pyLower t) || strIn "avoid" (pyLower t)

/-- The DosingAdjustment record built in the success branch of
get_renal_adjustment. -/
def mkRenalAdjustment (med : Medication) (drug_key : String)
    (renal_status : RenalImpairment) (dose_info notes : String)
    (gfr : Option ℚ) : DosingAdjustment :=
  { medication_id := med.id
  , medication_name := med.commercial_name
  , standard_dose := "See package insert"
  , adjusted_dose := dose_info
  , adjustment_reason := notes
  , impairment_type := "renal"
  , impairment_level := renalValue renal_status
  , gfr_range := if truthyQ gfr then some (gfrRangeText (gfr.getD 0)) else none
  , monitoring_required := true
  , monitoring_parameters := get_monitoring_params drug_key renal_status
  , contraindicated := doseTextFlag dose_info
  , source := "Egyptian National Formulary / Renal Drug Handbook" }

/-- DosingEngine.get_renal_adjustment. -/
def get_renal_adjustment (med : Medication) (p : PatientContext) :
    Option DosingAdjustment :=
  let renal_status := classify_renal_status p
  if renal_status = .normal then none
  else
    match find_drug_key med with
    | none => none
    | some drug_key =>
      match levelLookup ((alookup RENAL_DOSING_RULES drug_key).getD []) renal_status with
      | none => none
      | some (dose_info, notes) =>
        some (mkRenalAdjustment med drug_key renal_status dose_info notes
          (calculate_patient_gfr p))

/-- Bool key order for the contraindicated-first stable sort. -/
def boolLeB (a b : Bool) : Bool := !a || b

/-- DosingEngine.check_prescription: collect per-medication renal
adjustments, then list.sort(key=contraindicated, reverse=True). -/
def dosing_check_prescription (meds : List Medication) (p : PatientContext) :
    List DosingAdjustment :=
  stableSortBy (fun a b => boolLeB a.contraindicated b.contraindicated)
    (meds.filterMap (fun m => get_renal_adjustment m p))

/-! ## DDI engine (src/core/ddi_engine.py)
Python sets are modelled as duplicate-free lists in insertion order;
every theorem about check_pair below is proved for arbitrary identifier
lists, so the unspecified iteration order of a CPython set does not
matter.  The rules defaultdict is modelled by the extensionally equal
per-key extraction ddiRulesAt. -/

/-- One CRITICAL_DDI_RULES tuple. -/
structure DDIRule where
  drug1 : String
  drug2 : String
  severity : DDISeverity
  mechanism : String
  management : String
  deriving DecidableEq, Repr

/-- The reversed-direction copy that _load_rules indexes. -/
def DDIRule.swapDirs (r : DDIRule) : DDIRule :=
  { r with drug1 := r.drug2, drug2 := r.drug1 }

/-- CRITICAL_DDI_RULES. -/
def CRITICAL_DDI_RULES : List DDIRule :=
  [ ⟨"warfarin", "aspirin", .major,
     "Increased bleeding risk due to combined antiplatelet and anticoagulant effects",
     "Avoid combination or monitor INR closely. Consider PPI for GI protection."⟩
  , ⟨"warfarin", "nsaid", .major,
     "NSAIDs inhibit platelet function and may cause GI bleeding",
     "Avoid NSAIDs if possible. If necessary, use lowest dose for shortest duration."⟩
  , ⟨"warfarin", "metronidazole", .moderate,
     "Metronidazole inhibits warfarin metabolism (CYP2C9)",
     "Monitor INR closely. May need warfarin dose reduction."⟩
  , ⟨"warfarin", "fluconazole", .major,
     "Fluconazole inhibits CYP2C9 and CYP3A4, increasing warfarin effect",
     "Reduce warfarin dose by 25-50%. Monitor INR frequently."⟩
  , ⟨"warfarin", "amiodarone", .major,
     "Amiodarone inhibits warfarin metabolism",
     "Reduce warfarin dose by 30-50%. Monitor INR weekly for 6 weeks."⟩
  , ⟨"ace_inhibitor", "potassium", .major,
     "Risk of severe hyperkalemia",
     "Monitor serum potassium closely. Avoid potassium supplements unless hypokalemic."⟩
  , ⟨"ace_inhibitor", "spironolactone", .moderate,
     "Additive hyperkalemia risk",
     "Monitor potassium, especially in renal impairment."⟩
  , ⟨"amiodarone", "fluoroquinolone", .major,
     "Additive QT prolongation risk - risk of torsades de pointes",
     "Avoid combination. If unavoidable, monitor QTc and electrolytes."⟩
  , ⟨"clarithromycin", "domperidone", .major,
     "QT prolongation risk",
     "Avoid combination. Use alternative antiemetic."⟩
  , ⟨"erythromycin", "cisapride", .major,
     "Severe QT prolongation - fatal arrhythmias reported",
     "Contraindicated combination."⟩
  , ⟨"ssri", "tramadol", .major,
     "Serotonin syndrome risk due to combined serotonergic activity",
     "Avoid combination or monitor for serotonin syndrome symptoms."⟩
  , ⟨"ssri", "maoi", .major,
     "Life-threatening serotonin syndrome",
     "Contraindicated. Require 2-week washout between medications."⟩
  , ⟨"ssri", "linezolid", .major,
     "Linezolid has MAO inhibitor activity - serotonin syndrome risk",
     "Avoid if possible. If necessary, monitor closely for 2 weeks."⟩
  , ⟨"metformin", "iodinated_contrast", .major,
     "Risk of lactic acidosis",
     "Hold metformin 48h before and after contrast. Resume after renal function confirmed stable."⟩
  , ⟨"digoxin", "amiodarone", .major,
     "Amiodarone increases digoxin levels by 70-100%",
     "Reduce digoxin dose by 50%. Monitor levels."⟩
  , ⟨"digoxin", "verapamil", .major,
     "Verapamil increases digoxin levels and has additive AV node effects",
     "Reduce digoxin dose. Monitor for bradycardia."⟩
  , ⟨"digoxin", "clarithromycin", .moderate,
     "Macrolides increase digoxin levels via P-glycoprotein inhibition",
     "Monitor digoxin levels and for toxicity signs."⟩
  , ⟨"simvastatin", "clarithromycin", .major,
     "Risk of rhabdomyolysis due to CYP3A4 inhibition",
     "Use alternative statin (pravastatin, rosuvastatin) or antibiotic."⟩
  , ⟨"simvastatin", "itraconazole", .major,
     "Severe myopathy risk",
     "Contraindicated combination."⟩
  , ⟨"atorvastatin", "clarithromycin", .moderate,
     "Increased statin exposure",
     "Limit atorvastatin to 20mg daily. Monitor for myopathy."⟩
  , ⟨"theophylline", "ciprofloxacin", .major,
     "Ciprofloxacin inhibits theophylline metabolism",
     "Reduce theophylline dose by 30-50%. Monitor levels."⟩
  , ⟨"theophylline", "erythromycin", .moderate,
     "Macrolides increase theophylline levels",
     "Monitor theophylline levels."⟩
  , ⟨"lithium", "nsaid", .major,
     "NSAIDs reduce lithium clearance, causing toxicity",
     "Avoid if possible. If necessary, monitor lithium levels closely."⟩
  , ⟨"lithium", "ace_inhibitor", .major,
     "ACE inhibitors reduce lithium clearance",
     "Monitor lithium levels. May need dose reduction."⟩
  , ⟨"lithium", "diuretic", .moderate,
     "Thiazides and loop diuretics can increase lithium levels",
     "Monitor lithium levels, especially when initiating diuretic."⟩
  , ⟨"methotrexate", "nsaid", .major,
     "NSAIDs reduce methotrexate clearance, increasing toxicity",
     "Avoid combination with high-dose MTX. Monitor with low-dose."⟩
  , ⟨"methotrexate", "trimethoprim", .major,
     "Additive antifolate effects and reduced MTX clearance",
     "Avoid combination if possible. Monitor blood counts."⟩
  , ⟨"opioid", "benzodiazepine", .major,
     "Additive CNS and respiratory depression",
     "Avoid combination if possible. Use lowest effective doses. Monitor closely."⟩
  , ⟨"opioid", "maoi", .major,
     "Risk of serotonin syndrome and respiratory depression",
     "Avoid meperidine. Use other opioids with extreme caution."⟩
  , ⟨"sulfonylurea", "fluconazole", .moderate,
     "Fluconazole inhibits sulfonylurea metabolism - hypoglycemia risk",
     "Monitor blood glucose closely. May need sulfonylurea dose reduction."⟩ ]

/-- DrugClassifier.DRUG_CLASSES. -/
def DRUG_CLASSES : List (String × List String) :=
  [ ("ace_inhibitor",
      ["lisinopril", "enalapril", "ramipril", "captopril", "perindopril",
       "quinapril", "benazepril", "fosinopril", "moexipril", "trandolapril"])
  , ("arb",
      ["losartan", "valsartan", "irbesartan", "candesartan", "olmesartan",
       "telmisartan", "eprosartan", "azilsartan"])
  , ("nsaid",
      ["ibuprofen", "diclofenac", "naproxen", "indomethacin", "piroxicam",
       "meloxicam", "celecoxib", "ketoprofen", "aspirin", "ketorolac",
       "brufen", "cataflam", "voltaren"])
  , ("ssri",
      ["fluoxetine", "sertraline", "paroxetine", "citalopram", "escitalopram",
       "fluvoxamine"])
  , ("opioid",
      ["morphine", "codeine", "tramadol", "fentanyl", "oxycodone",
       "hydrocodone", "hydromorphone", "meperidine", "methadone"])
  , ("benzodiazepine",
      ["diazepam", "lorazepam", "alprazolam", "clonazepam", "midazolam",
       "temazepam", "oxazepam", "chlordiazepoxide"])
  , ("statin",
      ["simvastatin", "atorvastatin", "rosuvastatin", "pravastatin",
       "lovastatin", "fluvastatin", "pitavastatin"])
  , ("fluoroquinolone",
      ["ciprofloxacin", "levofloxacin", "moxifloxacin", "ofloxacin",
       "norfloxacin", "gatifloxacin"])
  , ("maoi",
      ["phenelzine", "tranylcypromine", "isocarboxazid", "selegiline",
       "rasagiline"])
  , ("sulfonylurea",
      ["glipizide", "glyburide", "glimepiride", "glibenclamide", "gliclazide"])
  , ("potassium",
      ["potassium chloride", "potassium citrate", "potassium", "k-dur",
       "slow-k", "kay ciel"])
  , ("diuretic",
      ["furosemide", "hydrochlorothiazide", "chlorthalidone", "bumetanide",
       "torsemide", "metolazone", "lasix"]) ]

/-- DrugClassifier.get_drug_class: classes whose member substrings occur
in the lowered name, in table order. -/
def get_drug_class (drug_name : String) : List String :=
  let dl := pyLower drug_name
  DRUG_CLASSES.filterMap
    (fun cm => if cm.2.any (fun m => strIn m dl) then some cm.1 else none)

/-- DrugClassifier.normalize_drug_name: the three re.sub passes, then
lowercase and whitespace collapse. -/
def normalize_drug_name (name : String) : String :=
  let cs1 := subAll
    (matchNumUnit ["mg".data, "g".data, "ml".data, "mcg".data, "µg".data, "%".data])
    name.data.length name.data
  let cs2 := subAll
    (matchNumSlashForm ["Tab".data, "Cap".data, "Amp".data, "Sach".data])
    cs1.length cs1
  let cs3 := subWordAlts
    ["Tab".data, "Cap".data, "Syrup".data, "Amp".data, "Cream".data,
     "Gel".data, "Oint".data, "F.C.Tab".data] true cs2.length none cs2
  collapseWs (pyLower ⟨cs3⟩)

/-- Set insertion in insertion order. -/
def addId (l : List String) (x : String) : List String :=
  if x ∈ l then l else l ++ [x]

/-- DDIEngine._get_identifiers as a duplicate-free insertion-order list. -/
def get_identifiers (med : Medication) : List String :=
  let l := [normalize_drug_name med.commercial_name]
  let l := if truthyS med.generic_name then addId l (pyLower (med.generic_name.getD "")) else l
  let l := med.active_ingredients.foldl (fun acc ing => addId acc (pyLower ing)) l
  let name_to_check :=
    if truthyS med.generic_name then med.generic_name.getD "" else med.commercial_name
  (get_drug_class name_to_check).foldl addId l

/-- The rule list the _load_rules defaultdict holds at key k: for each
source rule, the forward copy when (drug1, drug2) = k and the swapped
copy when (drug2, drug1) = k, in table order. -/
def ddiRulesAt (k : String × String) : List DDIRule :=
  CRITICAL_DDI_RULES.foldr
    (fun r acc =>
      (if (r.drug1, r.drug2) = k then [r] else []) ++
      (if (r.drug2, r.drug1) = k then [r.swapDirs] else []) ++ acc) []

/-- The DrugInteraction record check_pair emits for a matched rule. -/
def mkInteraction (m1 m2 : Medication) (r : DDIRule) : DrugInteraction :=
  { drug1_id := m1.id
  , drug2_id := m2.id
  , drug1_name := m1.commercial_name
  , drug2_name := m2.commercial_name
  , severity := r.severity
  , interaction_type := r.drug1 ++ "-" ++ r.drug2
  , mechanism := r.mechanism
  , management := r.management
  , evidence_level := 1
  , source := "HealthFlow DDI Rules v1.0" }

/-- Per-key emission: the break in check_pair keeps only the first rule
stored under the key. -/
def hitsKey (m1 m2 : Medication) (k : String × String) : List DrugInteraction :=
  match ddiRulesAt k with
  | [] => []
  | r :: _ => [mkInteraction m1 m2 r]

/-- Both key directions checked for one identifier pair. -/
def hitsPair (m1 m2 : Medication) (x y : String) : List DrugInteraction :=
  hitsKey m1 m2 (x, y) ++ hitsKey m1 m2 (y, x)

/-- The enumeration order of the nested identifier loops. -/
def pairSeq (l1 l2 : List String) : List (String × String) :=
  l1.foldr (fun x acc => l2.map (fun y => (x, y)) ++ acc) []

/-- The checked-set loop of check_pair. -/
def dedupLoop (m1 m2 : Medication) :
    List (String × String) → List (String × String) → List DrugInteraction
  | [], _ => []
  | (x, y) :: rest, checked =>
    if (x, y) ∈ checked ∨ (y, x) ∈ checked then dedupLoop m1 m2 rest checked
    else hitsPair m1 m2 x y ++ dedupLoop m1 m2 rest ((x, y) :: checked)

/-- DDIEngine.check_pair. -/
def check_pair (m1 m2 : Medication) : List DrugInteraction :=
  dedupLoop m1 m2 (pairSeq (get_identifiers m1) (get_identifiers m2)) []

/-- The unsorted pair sweep of check_prescription. -/
def prescriptionPairs : List Medication → List DrugInteraction
  | [] => []
  | m :: rest =>
    rest.foldr (fun m2 acc => check_pair m m2 ++ acc) [] ++ prescriptionPairs rest

/-- DDIEngine.check_prescription: pair sweep then
sort(key=severity.value, reverse=True) - a stable descending sort on the
severity value string. -/
def ddi_check_prescription (meds : List Medication) : List DrugInteraction :=
  stableSortBy (fun a b => strLeB (sevValue a.severity) (sevValue b.severity))
    (prescriptionPairs meds)

/-! ## Drug database (src/core/drug_database.py)
The medications dict and the three defaultdict(list) indices are
modelled as update-functions.  JSON rows are modelled already parsed
(RawMed); rows raising during parsing are skipped deterministically
upstream and do not appear. -/

/-- EgyptianDrugDatabase.BRAND_TO_GENERIC. -/
def BRAND_TO_GENERIC : List (String × String) :=
  [ ("panadol", "paracetamol"), ("cataflam", "diclofenac")
  , ("augmentin", "amoxicillin/clavulanate"), ("flagyl", "metronidazole")
  , ("voltaren", "diclofenac"), ("aspocid", "aspirin")
  , ("brufen", "ibuprofen"), ("amoxil", "amoxicillin")
  , ("zithromax", "azithromycin"), ("glucophage", "metformin")
  , ("lasix", "furosemide"), ("lipitor", "atorvastatin")
  , ("nexium", "esomeprazole"), ("januvia", "sitagliptin")
  , ("janumet", "sitagliptin/metformin"), ("concor", "bisoprolol")
  , ("plavix", "clopidogrel"), ("coversyl", "perindopril")
  , ("adalat", "nifedipine"), ("lanoxin", "digoxin")
  , ("synthroid", "levothyroxine"), ("eltroxin", "levothyroxine")
  , ("ventolin", "salbutamol"), ("seretide", "fluticasone/salmeterol")
  , ("symbicort", "budesonide/formoterol"), ("klacid", "clarithromycin")
  , ("ciprobay", "ciprofloxacin"), ("tavanic", "levofloxacin")
  , ("zocor", "simvastatin"), ("crestor", "rosuvastatin")
  , ("cordarone", "amiodarone"), ("zestril", "lisinopril")
  , ("tritace", "ramipril"), ("aldactone", "spironolactone")
  , ("cipralex", "escitalopram"), ("prozac", "fluoxetine")
  , ("xanax", "alprazolam"), ("tegretol", "carbamazepine")
  , ("neurontin", "gabapentin"), ("amaryl", "glimepiride")
  , ("daonil", "glyburide"), ("diflucan", "fluconazole")
  , ("sporanox", "itraconazole"), ("motilium", "domperidone") ]

/-- EgyptianDrugDatabase.HIGH_ALERT_DRUGS (a Python set; only
order-independent any-queries are made over it). -/
def HIGH_ALERT_DRUGS : List String :=
  [ "warfarin", "heparin", "insulin", "digoxin", "methotrexate"
  , "chemotherapy", "opioid", "morphine", "fentanyl", "potassium"
  , "magnesium sulfate", "epinephrine", "norepinephrine", "dopamine"
  , "amiodarone", "lidocaine", "propofol", "ketamine", "rocuronium" ]

/-- The database state: medications dict plus three list-valued indices. -/
structure DrugDB where
  medications : ℤ → Option Medication
  name_index : String → List ℤ
  generic_index : String → List ℤ
  ingredient_index : String → List ℤ

/-- A freshly constructed EgyptianDrugDatabase. -/
def emptyDB : DrugDB :=
  { medications := fun _ => none
  , name_index := fun _ => []
  , generic_index := fun _ => []
  , ingredient_index := fun _ => [] }

/-- EgyptianDrugDatabase._normalize_name: lowercase, strip punctuation
(re.sub of the complement of word-and-space), remove the word-bounded
unit and form suffixes, remove digit runs, collapse whitespace. -/
def normalize_name (name : String) : String :=
  let cs1 := (pyLower name).data.filter (fun c => isWordCh c || isWs c)
  let cs2 := subWordAlts
    ["mg".data, "gm".data, "ml".data, "tab".data, "cap".data, "syrup".data,
     "amp".data, "cream".data, "gel".data, "oint".data] false cs1.length none cs1
  collapseWs ⟨cs2.filter (fun c => !isDigitCh c)⟩

/-- The leftmost match of the parenthesised-token search in
_extract_generic_name: the group between the first ( that is followed by
a non-empty run of non-) characters and a closing ). -/
def parenScan : List Char → Option String
  | [] => none
  | c :: rest =>
    if c = '(' then
      let content := rest.takeWhile (fun d => d ≠ ')')
      if !content.isEmpty && (rest.drop content.length).head? = some ')' then
        some ⟨content⟩
      else parenScan rest
    else parenScan rest

/-- EgyptianDrugDatabase._extract_generic_name. -/
def extract_generic_name (commercial_name : String) : Option String :=
  let nl := pyLower commercial_name
  match BRAND_TO_GENERIC.find? (fun bg => strIn bg.1 nl) with
  | some bg => some bg.2
  | none =>
    match parenScan commercial_name.data with
    | some grp =>
      let pg := pyStrip grp
      if !pyIsDigitStr pg then some (pyLower pg) else none
    | none => none

/-- EgyptianDrugDatabase._extract_ingredients. -/
def extract_ingredients (commercial_name : String) : List String :=
  let nl := pyLower commercial_name
  BRAND_TO_GENERIC.foldl
    (fun acc bg =>
      if strIn bg.1 nl then
        acc ++ (if strIn "/" bg.2 then bg.2.splitOn "/" else [bg.2])
      else acc) []

/-- The medication value _process_medication leaves in the store after
its two mutations (generic-name when extraction hits a truthy value,
active ingredients always). -/
def storedOf (med : Medication) : Medication :=
  { med with
    generic_name :=
      match extract_generic_name med.commercial_name with
      | some g => if g ≠ "" then some g else med.generic_name
      | none => med.generic_name
  , active_ingredients := extract_ingredients med.commercial_name }

/-- EgyptianDrugDatabase._process_medication: store the medication
(with the generic-name and ingredient mutations applied) and append its
id to the three indices. -/
def process_medication (db : DrugDB) (med : Medication) : DrugDB :=
  let name_key := normalize_name med.commercial_name
  let generic := extract_generic_name med.commercial_name
  let ingredients := extract_ingredients med.commercial_name
  { medications := fun i => if i = med.id then some (storedOf med) else db.medications i
  , name_index := fun k =>
      if k = name_key then db.name_index k ++ [med.id] else db.name_index k
  , generic_index := fun k =>
      match generic with
      | some g =>
        if g ≠ "" ∧ k = pyLower g then db.generic_index k ++ [med.id]
        else db.generic_index k
      | none => db.generic_index k
  , ingredient_index := fun k =>
      db.ingredient_index k ++
        (ingredients.filter (fun ing => pyLower ing = k)).map (fun _ => med.id) }

/-- One already-parsed JSON medication row. -/
structure RawMed where
  id : ℤ
  commercial_name : String
  generic_name : Option String := none
  arabic_name : Option String := none
  active_ingredients : List String := []
  strength : Option String := none
  strength_value : Option ℚ := none
  strength_unit : Option String := none
  dosage_form : String := "other"
  package_size : Option String := none
  manufacturer : Option String := none
  atc_code : Option String := none
  eda_registration : Option String := none
  rxnorm_id : Option String := none
  drugbank_id : Option String := none
  is_otc : Bool := false
  is_controlled : Bool := false
  deriving DecidableEq, Repr

/-- The Medication built from a JSON row in load_from_json. -/
def medOfRaw (r : RawMed) : Medication :=
  { id := r.id
  , commercial_name := r.commercial_name
  , generic_name := r.generic_name
  , arabic_name := r.arabic_name
  , active_ingredients := r.active_ingredients
  , strength := r.strength
  , strength_value := r.strength_value
  , strength_unit := r.strength_unit
  , dosage_form := dosageFormOfString r.dosage_form
  , package_size := r.package_size
  , manufacturer := r.manufacturer
  , atc_code := r.atc_code
  , eda_registration := r.eda_registration
  , rxnorm_id := r.rxnorm_id
  , drugbank_id := r.drugbank_id
  , is_otc := r.is_otc
  , is_controlled := r.is_controlled }

/-- EgyptianDrugDatabase.load_from_json over parsed rows. -/
def load_from_json (db : DrugDB) (rows : List RawMed) : DrugDB :=
  rows.foldl (fun acc r => process_medication acc (medOfRaw r)) db

/-- EgyptianDrugDatabase.get_by_id. -/
def get_by_id (db : DrugDB) (i : ℤ) : Option Medication :=
  db.medications i

/-- EgyptianDrugDatabase.is_high_alert. -/
def is_high_alert (db : DrugDB) (i : ℤ) : Bool :=
  match db.medications i with
  | none => false
  | some med =>
    HIGH_ALERT_DRUGS.any (fun d => strIn d (pyLower med.commercial_name)) ||
      (match med.generic_name with
       | some g => g ≠ "" && HIGH_ALERT_DRUGS.any (fun d => strIn d (pyLower g))
       | none => false)

/-! ## Validation service (src/core/validation_service.py)
The mojibake emoji prefixes of the source warning strings are dropped
and the possessive apostrophe is elided; no claim inspects warning
text, only whether the warning lists are empty. -/

/-- MedicationValidationService._resolve_medications. -/
def resolve_medications (db : DrugDB) (items : List PrescriptionItem) :
    List Medication :=
  items.filterMap (fun it => get_by_id db it.medication_id)

/-- The pregnancy-contraindicated substring list. -/
def pregnancyContra : List String :=
  [ "methotrexate", "warfarin", "isotretinoin", "thalidomide"
  , "misoprostol", "finasteride", "statins", "ace_inhibitor"
  , "tetracycline", "fluoroquinolone" ]

/-- The condition to forbidden-substring table. -/
def conditionContra : List (String × List String) :=
  [ ("asthma", ["beta_blocker", "aspirin", "nsaid"])
  , ("heart_failure", ["nsaid", "thiazolidinedione", "verapamil", "diltiazem"])
  , ("peptic_ulcer", ["nsaid", "aspirin", "corticosteroid"])
  , ("gout", ["thiazide", "loop_diuretic", "aspirin"])
  , ("myasthenia_gravis", ["aminoglycoside", "fluoroquinolone", "beta_blocker"]) ]

/-- MedicationValidationService._check_contraindications. -/
def check_contraindications (meds : List Medication) (patient : PatientContext) :
    List String :=
  let preg :=
    if patient.is_pregnant then
      meds.foldr
        (fun med acc =>
          (pregnancyContra.filter
            (fun drug =>
              strIn drug (pyLower med.commercial_name) ||
              strIn drug (pyLower (med.generic_name.getD "")))).map
            (fun _ => med.commercial_name ++ ": Contraindicated in pregnancy")
          ++ acc) []
    else []
  let cond :=
    patient.conditions.foldr
      (fun condition acc =>
        match alookup conditionContra (replaceSpaceUnderscore (pyLower condition)) with
        | none => acc
        | some drugs =>
          meds.foldr
            (fun med acc2 =>
              (drugs.filter
                (fun drug => strIn drug (pyLower med.commercial_name))).map
                (fun _ =>
                  med.commercial_name ++ ": Caution/Contraindicated with " ++ condition)
              ++ acc2) acc) []
  preg ++ cond

/-- MedicationValidationService._generate_warnings. -/
def generate_warnings (db : DrugDB) (meds : List Medication)
    (patient : PatientContext) (interactions : List DrugInteraction)
    (dosing_adjustments : List DosingAdjustment) : List String :=
  let w1 := meds.filterMap
    (fun med =>
      if is_high_alert db med.id then
        some ("HIGH-ALERT: " ++ med.commercial_name ++ " requires extra verification")
      else none)
  let major_count :=
    (interactions.filter (fun i => sevValue i.severity = "major")).length
  let w2 :=
    if major_count > 0 then
      [toString major_count ++ " MAJOR drug interaction(s) detected - review required"]
    else []
  let moderate_count :=
    (interactions.filter (fun i => sevValue i.severity = "moderate")).length
  let w3 :=
    if moderate_count > 0 then
      [toString moderate_count ++ " moderate drug interaction(s) detected"]
    else []
  let contraindicated_count :=
    (dosing_adjustments.filter (·.contraindicated)).length
  let w4 :=
    if contraindicated_count > 0 then
      [toString contraindicated_count ++
        " medication(s) contraindicated for patients renal function"]
    else []
  let adjustment_count := dosing_adjustments.length - contraindicated_count
  let w5 :=
    if adjustment_count > 0 then
      [toString adjustment_count ++
        " medication(s) require dose adjustment for renal function"]
    else []
  let w6 :=
    match patient.age with
    | none => []
    | some a =>
      if a = 0 then []
      else if a ≥ 65 then
        ["Elderly patient - review for age-appropriate dosing and polypharmacy"]
      else if a < 18 then
        ["Pediatric patient - verify age-appropriate formulations and doses"]
      else []
  w1 ++ w2 ++ w3 ++ w4 ++ w5 ++ w6

/-- MedicationValidationService._generate_recommendations. -/
def generate_recommendations (interactions : List DrugInteraction)
    (dosing_adjustments : List DosingAdjustment)
    (_ : List String) : List String :=
  let r1 := interactions.filterMap
    (fun i =>
      if i.management ≠ "" then
        some ("For " ++ i.drug1_name ++ " + " ++ i.drug2_name ++ ": " ++ i.management)
      else none)
  let r2 := dosing_adjustments.foldr
    (fun adj acc =>
      (if adj.contraindicated then
        ["AVOID " ++ adj.medication_name ++ " - " ++ adj.adjustment_reason ++
          ". Consider alternatives."]
      else
        ["ADJUST " ++ adj.medication_name ++ ": " ++ adj.adjusted_dose ++
          " (" ++ adj.adjustment_reason ++ ")"] ++
        (if adj.monitoring_required then
          ["MONITOR for " ++ adj.medication_name ++ ": " ++
            joinCommaSpace adj.monitoring_parameters]
        else [])) ++ acc) []
  r1 ++ r2

/-- MedicationValidationService.validate_prescription. -/
def validate_prescription (db : DrugDB) (prescription : Prescription) :
    ValidationResult :=
  let medications := resolve_medications db prescription.items
  let interactions := ddi_check_prescription medications
  let dosing_adjustments :=
    dosing_check_prescription medications prescription.patient
  let contraindications :=
    check_contraindications medications prescription.patient
  let warnings :=
    generate_warnings db medications prescription.patient interactions
      dosing_adjustments
  let recommendations :=
    generate_recommendations interactions dosing_adjustments contraindications
  let is_valid :=
    !(interactions.any (fun i => sevValue i.severity == "major") ||
      dosing_adjustments.any (·.contraindicated) ||
      decide (contraindications.length > 0))
  { is_valid := is_valid
  , prescription_id := some prescription.id
  , medications_validated := medications.length
  , interactions := interactions
  , dosing_adjustments := dosing_adjustments
  , contraindications := contraindications
  , warnings := warnings
  , recommendations := recommendations }

/-- MedicationValidationService.validate_medication_pair. -/
def validate_medication_pair (db : DrugDB) (med1_id med2_id : ℤ) :
    List DrugInteraction :=
  match get_by_id db med1_id, get_by_id db med2_id with
  | some m1, some m2 => check_pair m1 m2
  | _, _ => []

/-! ## Webhook delivery (src/api/webhooks.py)
send_webhook is embedded as a pure function of the subscriber
behaviour: outcomes i is what the HTTP POST of attempt i (0-based)
produces - a status code with a body, or a raised transport error.
The await asyncio.sleep calls are recorded as a list of slept
durations, in order.  Signature generation (HMAC) and the envelope are
orthogonal to the retry claims and are not embedded. -/

/-- What one delivery attempt observes. -/
inductive AttemptOutcome
  | http (code : ℤ) (body : String)
  | transportError (msg : String)
  deriving DecidableEq, Repr

/-- The success statuses of send_webhook. -/
def isSuccessCode (code : ℤ) : Bool :=
  [(200 : ℤ), 201, 202, 204].contains code

/-- Whether an attempt outcome counts as a successful delivery. -/
def isSuccessOutcome : AttemptOutcome → Bool
  | .http code _ => isSuccessCode code
  | .transportError _ => false

/-- WebhookConfig (delivery-relevant fields). -/
structure WebhookConfigM where
  id : String
  name : String
  url : String
  secret : String
  events : List String
  active : Bool := true
  retry_count : ℕ := 3
  retry_delay_seconds : ℕ := 60
  deriving DecidableEq, Repr

/-- The mutable WebhookDelivery fields the retry loop writes. -/
structure DeliveryState where
  status : String
  attempts : ℕ
  response_code : Option ℤ := none
  response_body : Option String := none
  deriving DecidableEq, Repr

/-- The retry loop of send_webhook.  rem counts the remaining turns of
for attempt in range(retry_count); i is the attempt index; sleeping
happens after a non-success attempt when attempt < retry_count - 1. -/
def webhookLoop (outcomes : ℕ → AttemptOutcome) (n delay : ℕ) :
    (rem i : ℕ) → DeliveryState → DeliveryState × List ℕ
  | 0, _, st => (st, [])
  | rem + 1, i, st =>
    let st := { st with attempts := i + 1 }
    match outcomes i with
    | .http code body =>
      let st := { st with
        response_code := some code
        , response_body := if body = "" then none else some (body.take 500) }
      if isSuccessCode code then ({ st with status := "delivered" }, [])
      else
        let st := { st with status := "retrying" }
        let next := webhookLoop outcomes n delay rem (i + 1) st
        if i < n - 1 then (next.1, delay :: next.2) else next
    | .transportError msg =>
      let st := { st with
        status := "retrying", response_body := some (msg.take 500) }
      let next := webhookLoop outcomes n delay rem (i + 1) st
      if i < n - 1 then (next.1, delay :: next.2) else next

/-- WebhookManager.send_webhook: run the loop from the pending state,
then turn a still-retrying status into failed. -/
def send_webhook (cfg : WebhookConfigM) (outcomes : ℕ → AttemptOutcome) :
    DeliveryState × List ℕ :=
  let init : DeliveryState := { status := "pending", attempts := 0 }
  let r := webhookLoop outcomes cfg.retry_count cfg.retry_delay_seconds
    cfg.retry_count 0 init
  ({ r.1 with
      status := if r.1.status = "retrying" then "failed" else r.1.status }, r.2)

/-! ## Concrete instances used by several claims -/

/-- A plain warfarin medication. -/
def warfarinMed : Medication := { id := 1, commercial_name := "Warfarin" }

/-- A plain metronidazole medication. -/
def metronidazoleMed : Medication := { id := 2, commercial_name := "Metronidazole" }

/-- A plain fluconazole medication. -/
def fluconazoleMed : Medication := { id := 3, commercial_name := "Fluconazole" }

/-- A metformin product. -/
def metforminMed : Medication := { id := 4, commercial_name := "Metformin 500mg Tab" }

/-- A digoxin product. -/
def digoxinMed : Medication := { id := 5, commercial_name := "Digoxin 0.25mg Tab" }

/-- A patient with an explicit GFR of 20, renal impairment field normal. -/
def patientGfr20 : PatientContext := { gfr := some 20 }

/-- A patient with an explicit GFR of 0 and no Cockcroft-Gault inputs. -/
def patientGfr0 : PatientContext := { gfr := some 0 }

/-- A patient with an explicit GFR of 0 but complete Cockcroft-Gault
inputs (age 50, 70 kg, creatinine 1 mg/dL, male). -/
def patientGfr0Computable : PatientContext :=
  { gfr := some 0, age := some 50, weight_kg := some 70
  , serum_creatinine := some 1, sex := some "M" }

/-! ## Shared helper lemmas -/

/-- Association-list lookup success implies membership. -/
theorem alookup_mem {α : Type} :
    ∀ (l : List (String × α)) (k : String) (v : α),
      alookup l k = some v → (k, v) ∈ l := by
  intro l
  induction l with
  | nil => intro k v h; simp [alookup] at h
  | cons hd tl ih =>
    intro k v h
    unfold alookup at h
    split at h
    · next heq =>
      cases h
      exact List.mem_cons.mpr (Or.inl (by rw [← heq]))
    · next hne => exact List.mem_cons.mpr (Or.inr (ih k v h))

/-- A successful level lookup is a member of the entry list. -/
theorem levelLookup_mem (entries : List (RenalImpairment × String × String))
    (st : RenalImpairment) (dn : String × String)
    (h : levelLookup entries st = some dn) : (st, dn) ∈ entries := by
  unfold levelLookup at h
  cases hf : entries.find? (fun e => e.1 = st) with
  | none => rw [hf] at h; simp at h
  | some e =>
    rw [hf] at h
    simp only [Option.map_some'] at h
    have hm := List.mem_of_find?_eq_some hf
    have hp := List.find?_some hf
    have h1 : e.1 = st := by simpa using hp
    have h2 : e.2 = dn := by simpa using h
    have : e = (st, dn) := by cases e; simp_all
    rwa [this] at hm

/-- In every renal rule entry, a contraindicated or avoid marker in the
notes text comes with one in the dose text (checked over the whole
table). -/
theorem renal_table_notes :
    RENAL_DOSING_RULES.all
      (fun kv => kv.2.all (fun e => !doseTextFlag e.2.2 || doseTextFlag e.2.1)) = true := by
  decide

/-- Pointwise form of renal_table_notes. -/
theorem renal_table_flag (k : String)
    (entries : List (RenalImpairment × String × String))
    (hkm : (k, entries) ∈ RENAL_DOSING_RULES)
    (e : RenalImpairment × String × String) (he : e ∈ entries)
    (hn : doseTextFlag e.2.2 = true) : doseTextFlag e.2.1 = true := by
  have hall := renal_table_notes
  rw [List.all_eq_true] at hall
  have h1 := hall _ hkm
  rw [List.all_eq_true] at h1
  have h2 := h1 _ he
  rw [hn] at h2
  simpa using h2

/-- The Cockcroft-Gault value of patientGfr0Computable: the explicit
GFR of 0 is falsy, so the formula runs and yields 87.5 mL/min. -/
theorem cpg_computable :
    calculate_patient_gfr patientGfr0Computable = some (175 / 2) := by
  unfold calculate_patient_gfr patientGfr0Computable
  norm_num [truthyQ]
  refine ⟨by decide, ?_⟩
  rw [show decide ("M" = "F") = false from by decide]
  unfold cockcroft_gault round1 roundHalfEven
  norm_num

/-- patientGfr0Computable is classified mild, not normal. -/
theorem crs_computable :
    classify_renal_status patientGfr0Computable = RenalImpairment.mild := by
  unfold classify_renal_status
  rw [show patientGfr0Computable.renal_impairment = RenalImpairment.normal from rfl]
  simp only [cpg_computable]
  norm_num
  unfold classify_renal_function
  norm_num

/-- A patient whose renal-impairment field is explicitly severe (no GFR
computation is involved for such a patient). -/
def patientSevere : PatientContext := { renal_impairment := .severe }

/-! ## Claim C2 -/

/-- C2: the DDI detector does NOT sort major interactions first.  For
the prescription warfarin, metronidazole, fluconazole the pair sweep
finds two moderate interactions (warfarin-metronidazole, both key
directions) and two major ones (warfarin-fluconazole); the
reverse-lexicographic sort on the severity value strings then leaves
the moderate ones in front, because the string moderate is greater than
the string major.  This evaluates the code at the failing input of the
code_bug verdict: the code contradicts both the claim and its own
comment saying Sort by severity (major first). -/
theorem claim_C2_major_not_first :
    (ddi_check_prescription [warfarinMed, metronidazoleMed, fluconazoleMed]).map
        (fun i => i.severity) =
      [.moderate, .moderate, .major, .major] := by decide

/-! ## Claim C3 -/

/-- C3 (amended): for a patient whose renal-impairment field is normal
and whose resolved GFR (explicit, else Cockcroft-Gault) is strictly
between 0 and 30, any medication whose dosing-rule key resolves to
metformin, glyburide or dabigatran receives a dosing adjustment marked
contraindicated.  The amendment relative to the claim: a GFR of exactly
0 is excluded (Python truthiness treats it as missing, see the
counterexample) and the renal-impairment field must be normal so that
the GFR decides the stage. -/
theorem claim_C3_low_gfr_contraindicated
    (med : Medication) (p : PatientContext) (g : ℚ) (k : String)
    (hri : p.renal_impairment = RenalImpairment.normal)
    (hg : calculate_patient_gfr p = some g)
    (h0 : 0 < g) (h30 : g < 30)
    (hk : find_drug_key med = some k)
    (hmem : k = "metformin" ∨ k = "glyburide" ∨ k = "dabigatran") :
    ∃ adj, get_renal_adjustment med p = some adj ∧ adj.contraindicated = true := by
  have hst : classify_renal_status p = classify_renal_function g := by
    unfold classify_renal_status
    rw [hri, hg]
    simp [h0.ne']
  have hcls : classify_renal_function g = RenalImpairment.severe ∨
      classify_renal_function g = RenalImpairment.esrd := by
    unfold classify_renal_function
    have h90 : ¬ g ≥ 90 := by linarith
    have h60 : ¬ g ≥ 60 := by linarith
    have h30' : ¬ g ≥ 30 := by linarith
    rcases le_or_lt 15 g with h | h
    · left; simp [h90, h60, h30', h]
    · right; simp [h90, h60, h30', not_le.mpr h]
  have key : ∀ k', (k' = "metformin" ∨ k' = "glyburide" ∨ k' = "dabigatran") →
      ∀ st, (st = RenalImpairment.severe ∨ st = RenalImpairment.esrd) →
      ∃ d n, levelLookup ((alookup RENAL_DOSING_RULES k').getD []) st = some (d, n) ∧
        doseTextFlag d = true := by
    rintro k' (rfl | rfl | rfl) st (rfl | rfl) <;> exact ⟨_, _, rfl, by decide⟩
  obtain ⟨d, n, heq, hflag⟩ := key k hmem _ hcls
  have hnn : classify_renal_function g ≠ RenalImpairment.normal := by
    rcases hcls with hc | hc <;> rw [hc] <;> decide
  refine ⟨mkRenalAdjustment med k (classify_renal_function g) d n
    (calculate_patient_gfr p), ?_, hflag⟩
  simp only [get_renal_adjustment, hst, hk, heq]
  rw [if_neg hnn]

/-- C3 witness: metformin at an explicit GFR of 20 is contraindicated. -/
theorem claim_C3_low_gfr_contraindicated_witness :
    find_drug_key metforminMed = some "metformin" ∧
    calculate_patient_gfr patientGfr20 = some 20 ∧
    (0 : ℚ) < 20 ∧ (20 : ℚ) < 30 ∧
    ∃ adj, get_renal_adjustment metforminMed patientGfr20 = some adj ∧
      adj.contraindicated = true :=
  ⟨by decide, by decide, by norm_num, by norm_num,
    claim_C3_low_gfr_contraindicated metforminMed patientGfr20 20 "metformin"
      rfl (by decide) (by norm_num) (by norm_num) (by decide) (Or.inl rfl)⟩

/-- C3 counterexample to the claim as stated: an explicit GFR of 0 is
below 30 and metformin matches the renal-contraindicated rules, yet no
adjustment at all is emitted, because Python truthiness discards the
zero GFR and the renal status stays normal. -/
theorem claim_C3_gfr_zero_counterexample :
    patientGfr0.gfr = some 0 ∧
    patientGfr0.renal_impairment = RenalImpairment.normal ∧
    find_drug_key metforminMed = some "metformin" ∧
    get_renal_adjustment metforminMed patientGfr0 = none := by decide

/-! ## Claim C7 -/

/-- C7: whenever the dose detector emits a renal adjustment, its
contraindicated flag equals the case-insensitive contains check for
contraindicated or avoid over the adjusted-dose text or the notes text
of the matched rule entry (doseTextFlag lowers its input before the
substring test).  The code only inspects the dose text; the equivalence
with the dose-or-notes disjunction holds because no notes text in the
rule table carries either marker (renal_table_notes). -/
theorem claim_C7_contraindicated_iff
    (med : Medication) (p : PatientContext) (adj : DosingAdjustment)
    (h : get_renal_adjustment med p = some adj) :
    adj.contraindicated =
      (doseTextFlag adj.adjusted_dose || doseTextFlag adj.adjustment_reason) := by
  simp only [get_renal_adjustment] at h
  split at h
  · exact absurd h (by simp)
  · split at h
    · exact absurd h (by simp)
    · next drug_key hfk =>
      split at h
      · exact absurd h (by simp)
      · next dose_info notes heq2 =>
        cases h
        show doseTextFlag dose_info =
          (doseTextFlag dose_info || doseTextFlag notes)
        cases hN : doseTextFlag notes with
        | false => simp
        | true =>
          cases halo : alookup RENAL_DOSING_RULES drug_key with
          | none => rw [halo] at heq2; simp [levelLookup] at heq2
          | some entries =>
            rw [halo] at heq2
            simp only [Option.getD_some] at heq2
            have hmem := alookup_mem _ _ _ halo
            have hent := levelLookup_mem _ _ _ heq2
            have hd := renal_table_flag _ _ hmem _ hent (by simpa using hN)
            simp only [hd]
            simp

/-- C7 witness: the metformin adjustment of an explicitly severe
patient instantiates the equivalence. -/
theorem claim_C7_contraindicated_iff_witness :
    get_renal_adjustment metforminMed patientSevere =
      some (mkRenalAdjustment metforminMed "metformin" RenalImpairment.severe
        "Contraindicated" "Lactic acidosis risk" none) ∧
    (mkRenalAdjustment metforminMed "metformin" RenalImpairment.severe
        "Contraindicated" "Lactic acidosis risk" none).contraindicated =
      (doseTextFlag (mkRenalAdjustment metforminMed "metformin"
          RenalImpairment.severe "Contraindicated" "Lactic acidosis risk"
          none).adjusted_dose ||
        doseTextFlag (mkRenalAdjustment metforminMed "metformin"
          RenalImpairment.severe "Contraindicated" "Lactic acidosis risk"
          none).adjustment_reason) :=
  ⟨by decide, claim_C7_contraindicated_iff metforminMed patientSevere _ (by decide)⟩

/-! ## Claim C10 -/

/-- C10 (amended): whenever the resolved patient GFR is absent or 0 (in
particular when the explicit GFR is 0 and the Cockcroft-Gault inputs
are incomplete, or when the computed clearance is 0 because creatinine
is non-positive) and the renal-impairment field is normal, the renal
status is classified normal and no dosing adjustment is emitted for any
medication.  The amendment relative to the claim: an explicit GFR of 0
alone is not sufficient, because Python truthiness lets a computable
Cockcroft-Gault value take over (see the counterexample). -/
theorem claim_C10_zero_gfr_normal (p : PatientContext)
    (hri : p.renal_impairment = RenalImpairment.normal)
    (hg : calculate_patient_gfr p = none ∨ calculate_patient_gfr p = some 0) :
    classify_renal_status p = RenalImpairment.normal ∧
      ∀ med, get_renal_adjustment med p = none := by
  have hc : classify_renal_status p = RenalImpairment.normal := by
    unfold classify_renal_status
    rw [hri]
    rcases hg with h | h <;> simp [h]
  exact ⟨hc, fun med => by simp [get_renal_adjustment, hc]⟩

/-- C10 witness: the patient with an explicit GFR of 0 and no formula
inputs is classified normal and gets no adjustments. -/
theorem claim_C10_zero_gfr_normal_witness :
    (calculate_patient_gfr patientGfr0 = none ∨
      calculate_patient_gfr patientGfr0 = some 0) ∧
    (classify_renal_status patientGfr0 = RenalImpairment.normal ∧
      ∀ med, get_renal_adjustment med patientGfr0 = none) :=
  ⟨Or.inl (by decide), claim_C10_zero_gfr_normal patientGfr0 rfl (Or.inl (by decide))⟩

/-- C10 counterexample to the claim as stated: a patient with explicit
GFR 0, renal-impairment field normal, but complete Cockcroft-Gault
inputs is classified mild (the falsy 0 hands control to the formula,
which yields 87.5), and digoxin does receive an adjustment. -/
theorem claim_C10_explicit_zero_counterexample :
    patientGfr0Computable.gfr = some 0 ∧
    patientGfr0Computable.renal_impairment = RenalImpairment.normal ∧
    classify_renal_status patientGfr0Computable = RenalImpairment.mild ∧
    get_renal_adjustment digoxinMed patientGfr0Computable ≠ none := by
  refine ⟨rfl, rfl, crs_computable, ?_⟩
  simp [get_renal_adjustment, crs_computable,
    show find_drug_key digoxinMed = some "digoxin" from by decide,
    show levelLookup ((alookup RENAL_DOSING_RULES "digoxin").getD [])
      RenalImpairment.mild = some ("0.125-0.25mg daily", "Monitor levels") from by decide]

/-! ## Claim C4 -/

/-- The last row of a JSON batch carrying a given id (dict semantics:
the later row replaces the earlier). -/
def lastRowWith : List RawMed → ℤ → Option RawMed
  | [], _ => none
  | r :: rs, i =>
    match lastRowWith rs i with
    | some r' => some r'
    | none => if r.id = i then some r else none

/-- Projection helper. -/
theorem medOfRaw_id (r : RawMed) : (medOfRaw r).id = r.id := rfl

/-- Projection helper. -/
theorem medOfRaw_cn (r : RawMed) :
    (medOfRaw r).commercial_name = r.commercial_name := rfl

/-- Pointwise effect of one processed medication on the store. -/
theorem process_medications_at (db : DrugDB) (med : Medication) (i : ℤ) :
    (process_medication db med).medications i =
      if i = med.id then some (storedOf med) else db.medications i := rfl

/-- Pointwise effect of one processed medication on the name index. -/
theorem process_name_index_at (db : DrugDB) (med : Medication) (k : String) :
    (process_medication db med).name_index k =
      if k = normalize_name med.commercial_name then db.name_index k ++ [med.id]
      else db.name_index k := rfl

/-- The store after a load: the last row with the id wins, earlier
database content survives untouched ids. -/
theorem load_medications_lookup :
    ∀ (rows : List RawMed) (db : DrugDB) (i : ℤ),
      (load_from_json db rows).medications i =
        match lastRowWith rows i with
        | some r => some (storedOf (medOfRaw r))
        | none => db.medications i := by
  intro rows
  induction rows with
  | nil => intro db i; rfl
  | cons r rs ih =>
    intro db i
    show (load_from_json (process_medication db (medOfRaw r)) rs).medications i = _
    rw [ih]
    cases h : lastRowWith rs i with
    | some r' => simp only [lastRowWith, h]
    | none =>
      simp only [lastRowWith, h, process_medications_at, medOfRaw_id]
      by_cases hid : r.id = i
      · simp [hid]
      · simp [hid, Ne.symm hid]

/-- The ids a batch of rows appends to one name-index key. -/
def nameDelta (rows : List RawMed) (k : String) : List ℤ :=
  rows.foldr (fun r acc =>
    (if k = normalize_name r.commercial_name then [r.id] else []) ++ acc) []

/-- Loading appends the name-index delta of the rows. -/
theorem load_name_index :
    ∀ (rows : List RawMed) (db : DrugDB) (k : String),
      (load_from_json db rows).name_index k =
        db.name_index k ++ nameDelta rows k := by
  intro rows
  induction rows with
  | nil => intro db k; simp [nameDelta, load_from_json]
  | cons r rs ih =>
    intro db k
    show (load_from_json (process_medication db (medOfRaw r)) rs).name_index k = _
    rw [ih]
    simp only [process_name_index_at, medOfRaw_id, medOfRaw_cn, nameDelta]
    by_cases h : k = normalize_name r.commercial_name
    · simp [h]
    · simp [h, nameDelta]

/-- Pointwise effect of one processed medication on the generic index. -/
theorem process_generic_index_at (db : DrugDB) (med : Medication) (k : String) :
    (process_medication db med).generic_index k =
      match extract_generic_name med.commercial_name with
      | some g =>
        if g ≠ "" ∧ k = pyLower g then db.generic_index k ++ [med.id]
        else db.generic_index k
      | none => db.generic_index k := rfl

/-- Pointwise effect of one processed medication on the ingredient
index. -/
theorem process_ingredient_index_at (db : DrugDB) (med : Medication) (k : String) :
    (process_medication db med).ingredient_index k =
      db.ingredient_index k ++
        ((extract_ingredients med.commercial_name).filter
          (fun ing => pyLower ing = k)).map (fun _ => med.id) := rfl

/-- The ids a batch of rows appends to one generic-index key. -/
def genericDelta (rows : List RawMed) (k : String) : List ℤ :=
  rows.foldr (fun r acc =>
    (match extract_generic_name r.commercial_name with
     | some g => if g ≠ "" ∧ k = pyLower g then [r.id] else []
     | none => []) ++ acc) []

/-- The ids a batch of rows appends to one ingredient-index key. -/
def ingredientDelta (rows : List RawMed) (k : String) : List ℤ :=
  rows.foldr (fun r acc =>
    ((extract_ingredients r.commercial_name).filter
      (fun ing => pyLower ing = k)).map (fun _ => r.id) ++ acc) []

/-- Loading appends the generic-index delta of the rows. -/
theorem load_generic_index :
    ∀ (rows : List RawMed) (db : DrugDB) (k : String),
      (load_from_json db rows).generic_index k =
        db.generic_index k ++ genericDelta rows k := by
  intro rows
  induction rows with
  | nil => intro db k; simp [genericDelta, load_from_json]
  | cons r rs ih =>
    intro db k
    show (load_from_json (process_medication db (medOfRaw r)) rs).generic_index k = _
    rw [ih]
    simp only [process_generic_index_at, medOfRaw_id, medOfRaw_cn, genericDelta]
    cases hg : extract_generic_name r.commercial_name with
    | none => simp [genericDelta, hg]
    | some g =>
      by_cases hc : g ≠ "" ∧ k = pyLower g
      · simp [genericDelta, hg, hc]
      · simp [genericDelta, hg, hc]

/-- Loading appends the ingredient-index delta of the rows. -/
theorem load_ingredient_index :
    ∀ (rows : List RawMed) (db : DrugDB) (k : String),
      (load_from_json db rows).ingredient_index k =
        db.ingredient_index k ++ ingredientDelta rows k := by
  intro rows
  induction rows with
  | nil => intro db k; simp [ingredientDelta, load_from_json]
  | cons r rs ih =>
    intro db k
    show (load_from_json (process_medication db (medOfRaw r)) rs).ingredient_index k = _
    rw [ih]
    simp [process_ingredient_index_at, medOfRaw_id, medOfRaw_cn, ingredientDelta]

/-- C4 (amended): loading the same processed JSON twice yields the
same medications map as loading it once, but not the same indices: the
second load appends every id again, so each commercial-name, generic
and ingredient index entry becomes its single-load value concatenated
with itself.  The claim as stated (identical catalog contents including
all three indices) fails, see the counterexample. -/
theorem claim_C4_load_idempotent_amended (rows : List RawMed) :
    (load_from_json (load_from_json emptyDB rows) rows).medications =
      (load_from_json emptyDB rows).medications ∧
    (∀ k, (load_from_json (load_from_json emptyDB rows) rows).name_index k =
      (load_from_json emptyDB rows).name_index k ++
        (load_from_json emptyDB rows).name_index k) ∧
    (∀ k, (load_from_json (load_from_json emptyDB rows) rows).generic_index k =
      (load_from_json emptyDB rows).generic_index k ++
        (load_from_json emptyDB rows).generic_index k) ∧
    (∀ k, (load_from_json (load_from_json emptyDB rows) rows).ingredient_index k =
      (load_from_json emptyDB rows).ingredient_index k ++
        (load_from_json emptyDB rows).ingredient_index k) := by
  refine ⟨funext fun i => ?_, fun k => ?_, fun k => ?_, fun k => ?_⟩
  · rw [load_medications_lookup rows (load_from_json emptyDB rows) i]
    cases h : lastRowWith rows i with
    | some r =>
      rw [load_medications_lookup rows emptyDB i, h]
    | none => rfl
  · rw [load_name_index rows (load_from_json emptyDB rows) k,
      load_name_index rows emptyDB k]
    show ([] ++ nameDelta rows k) ++ nameDelta rows k =
      ([] ++ nameDelta rows k) ++ ([] ++ nameDelta rows k)
    simp
  · rw [load_generic_index rows (load_from_json emptyDB rows) k,
      load_generic_index rows emptyDB k]
    show ([] ++ genericDelta rows k) ++ genericDelta rows k =
      ([] ++ genericDelta rows k) ++ ([] ++ genericDelta rows k)
    simp
  · rw [load_ingredient_index rows (load_from_json emptyDB rows) k,
      load_ingredient_index rows emptyDB k]
    show ([] ++ ingredientDelta rows k) ++ ingredientDelta rows k =
      ([] ++ ingredientDelta rows k) ++ ([] ++ ingredientDelta rows k)
    simp

/-- A one-row JSON batch. -/
def panadolRow : RawMed := { id := 1, commercial_name := "Panadol" }

/-- C4 counterexample to the claim as stated: loading the Panadol row
twice leaves id 1 twice in the name index, which differs from the
single-load index. -/
theorem claim_C4_index_counterexample :
    (load_from_json (load_from_json emptyDB [panadolRow]) [panadolRow]).name_index
        "panadol" = [1, 1] ∧
    (load_from_json emptyDB [panadolRow]).name_index "panadol" = [1] ∧
    (load_from_json (load_from_json emptyDB [panadolRow]) [panadolRow]).name_index
        "panadol" ≠
      (load_from_json emptyDB [panadolRow]).name_index "panadol" := by decide

/-! ## Claim C9 -/

/-- C9: when either medication id is absent from the catalog,
validate_medication_pair returns the empty interaction list instead of
signalling a not-found error, and a known pair without interactions
returns exactly the same value, so the caller cannot distinguish the
two situations from the return value. -/
theorem claim_C9_unknown_id_empty (db : DrugDB) (a b : ℤ) :
    ((get_by_id db a = none ∨ get_by_id db b = none) →
      validate_medication_pair db a b = []) ∧
    (∀ m1 m2, get_by_id db a = some m1 → get_by_id db b = some m2 →
      check_pair m1 m2 = [] → validate_medication_pair db a b = []) := by
  constructor
  · rintro (h | h)
    · cases hb : get_by_id db b <;> simp [validate_medication_pair, h, hb]
    · cases ha : get_by_id db a <;> simp [validate_medication_pair, ha, h]
  · intro m1 m2 h1 h2 hcp
    simp [validate_medication_pair, h1, h2, hcp]

/-- A catalog holding only warfarin under id 1. -/
def dbSingleton : DrugDB :=
  { emptyDB with medications := fun i => if i = 1 then some warfarinMed else none }

/-- C9 witness: id 2 is unknown in the singleton catalog and the pair
check returns the empty list. -/
theorem claim_C9_unknown_id_empty_witness :
    get_by_id dbSingleton 2 = none ∧
    validate_medication_pair dbSingleton 1 2 = [] :=
  ⟨by decide, (claim_C9_unknown_id_empty dbSingleton 1 2).1 (Or.inr (by decide))⟩

/-! ## Claim C8 -/

/-- With no resolved medications no contraindication is produced,
whatever the patient looks like. -/
theorem check_contraindications_nil (p : PatientContext) :
    check_contraindications [] p = [] := by
  unfold check_contraindications
  simp only [List.foldr_nil, ite_self, List.nil_append]
  generalize p.conditions = conds
  induction conds with
  | nil => rfl
  | cons c cs ih =>
    simp only [List.foldr_cons]
    cases alookup conditionContra (replaceSpaceUnderscore (pyLower c)) <;>
      simpa using ih

/-- With no medications, interactions or adjustments, only the age
branch could produce a warning; the hypothesis rules it out. -/
theorem generate_warnings_nil (db : DrugDB) (p : PatientContext)
    (hage : p.age = none ∨ p.age = some 0 ∨
      ∃ a, p.age = some a ∧ 18 ≤ a ∧ a < 65) :
    generate_warnings db [] p [] [] = [] := by
  unfold generate_warnings
  rcases hage with h | h | ⟨a, ha, h18, h65⟩
  · simp [h]
  · simp [h]
  · simp [ha, show ¬(a = 0) by omega, show ¬(a ≥ 65) by omega,
      show ¬(a < 18) by omega]

/-- C8: a prescription with an empty items list validates to is_valid
true, zero medications validated, and empty interaction, adjustment,
contraindication, warning and recommendation lists, for every patient
context that does not itself trigger an age warning (age absent, zero,
or at least 18 and below 65 - the only patient-only warning source). -/
theorem claim_C8_empty_prescription (db : DrugDB) (p : PatientContext) (rxid : String)
    (hage : p.age = none ∨ p.age = some 0 ∨
      ∃ a, p.age = some a ∧ 18 ≤ a ∧ a < 65) :
    validate_prescription db { id := rxid, patient := p, items := [] } =
      { is_valid := true, prescription_id := some rxid } := by
  simp [validate_prescription, resolve_medications, ddi_check_prescription,
    prescriptionPairs, stableSortBy, dosing_check_prescription,
    check_contraindications_nil, generate_warnings_nil db p hage,
    generate_recommendations]

/-- C8 witness: the default patient context with an empty item list. -/
theorem claim_C8_empty_prescription_witness :
    validate_prescription emptyDB { id := "rx", patient := {}, items := [] } =
      { is_valid := true, prescription_id := some "rx" } :=
  claim_C8_empty_prescription emptyDB {} "rx" (Or.inl rfl)

/-! ## Claim C1 -/

/-- The severity value string equals major exactly for the major
member. -/
theorem sev_beq_major_iff (s : DDISeverity) :
    ((sevValue s == "major") = true) ↔ s = DDISeverity.major := by
  cases s <;> decide

/-- Propositional form of sev_beq_major_iff. -/
theorem sevValue_eq_major_iff (s : DDISeverity) :
    (sevValue s = "major") ↔ s = DDISeverity.major := by
  cases s <;> decide

/-- C1: the validation result has is_valid false exactly when some
returned interaction has severity major, or some returned dosing
adjustment is contraindicated, or the returned contraindication list is
non-empty. -/
theorem claim_C1_is_valid_iff (db : DrugDB) (p : Prescription) :
    ((validate_prescription db p).is_valid = false) ↔
      ((∃ i ∈ (validate_prescription db p).interactions,
          i.severity = DDISeverity.major) ∨
       (∃ a ∈ (validate_prescription db p).dosing_adjustments,
          a.contraindicated = true) ∨
       (validate_prescription db p).contraindications ≠ []) := by
  have hr : (validate_prescription db p).is_valid =
      !((validate_prescription db p).interactions.any
          (fun i => sevValue i.severity == "major") ||
        (validate_prescription db p).dosing_adjustments.any (·.contraindicated) ||
        decide ((validate_prescription db p).contraindications.length > 0)) := rfl
  rw [hr]
  generalize (validate_prescription db p).interactions = I
  generalize (validate_prescription db p).dosing_adjustments = D
  generalize (validate_prescription db p).contraindications = C
  rw [(by decide : ∀ b : Bool, ((!b) = false) ↔ (b = true)) _]
  rw [Bool.or_eq_true, Bool.or_eq_true, or_assoc]
  apply or_congr
  · simp [List.any_eq_true, sevValue_eq_major_iff]
  apply or_congr
  · simp [List.any_eq_true]
  · simp [List.length_pos]

/-! ## Claim C6 -/

/-- What the retry loop guarantees from attempt index i on, for a
well-formed entry state: attempt-count bounds, the delivered status
exactly on the first success, retrying with n attempts when everything
fails, and one sleep between consecutive attempts. -/
def LoopOut (n delay i : ℕ) (outcomes : ℕ → AttemptOutcome)
    (st : DeliveryState) (rem : ℕ) (r : DeliveryState × List ℕ) : Prop :=
  (i ≤ r.1.attempts ∧ r.1.attempts ≤ n) ∧
  (rem ≠ 0 → i + 1 ≤ r.1.attempts) ∧
  (rem = 0 → r.1 = st ∧ r.2 = []) ∧
  (rem ≠ 0 → r.1.status = "delivered" ∨ r.1.status = "retrying") ∧
  (r.1.status = "delivered" ↔
    ∃ j, i ≤ j ∧ j < r.1.attempts ∧ isSuccessOutcome (outcomes j) = true) ∧
  (r.1.status = "delivered" →
    isSuccessOutcome (outcomes (r.1.attempts - 1)) = true ∧
    ∀ j, i ≤ j → j < r.1.attempts - 1 → isSuccessOutcome (outcomes j) = false) ∧
  ((∃ j, i ≤ j ∧ j < n ∧ isSuccessOutcome (outcomes j) = true) →
    r.1.status = "delivered") ∧
  ((∀ j, i ≤ j → j < n → isSuccessOutcome (outcomes j) = false) → rem ≠ 0 →
    r.1.status = "retrying" ∧ r.1.attempts = n) ∧
  r.2 = List.replicate (r.1.attempts - 1 - i) delay

/-- The loop guarantee is preserved across one failed attempt (both the
non-success HTTP branch and the transport-error branch funnel into this
step). -/
theorem failCont (n delay i rem : ℕ) (outcomes : ℕ → AttemptOutcome)
    (st st3 : DeliveryState) (r : DeliveryState × List ℕ)
    (hin : i + (rem + 1) = n)
    (hfi : isSuccessOutcome (outcomes i) = false)
    (hst3s : st3.status = "retrying") (hst3a : st3.attempts = i + 1)
    (hrec : LoopOut n delay (i + 1) outcomes st3 rem r) :
    LoopOut n delay i outcomes st (rem + 1)
      (if i < n - 1 then (r.1, delay :: r.2) else r) := by
  obtain ⟨⟨ha1, ha2⟩, hmore, hzero, hdel_or, hiff, hfirst, hex, hfail, hsl⟩ := hrec
  have hA1 : i + 1 ≤ r.1.attempts := ha1
  have hsplit : (if i < n - 1 then (r.1, delay :: r.2) else r) =
      (r.1, if i < n - 1 then delay :: r.2 else r.2) := by
    by_cases hc : i < n - 1 <;> simp [hc]
  rw [hsplit]
  dsimp only [LoopOut]
  refine ⟨⟨by omega, ha2⟩, fun _ => hA1, fun h => absurd h (by omega), ?_, ?_, ?_, ?_, ?_, ?_⟩
  · intro _
    rcases Nat.eq_zero_or_pos rem with hr | hr
    · have := hzero hr
      rcases this with ⟨h1, _⟩
      rw [h1, hst3s]
      right
      rfl
    · exact hdel_or (by omega)
  · constructor
    · intro hd
      obtain ⟨j, hj1, hj2, hj3⟩ := hiff.mp hd
      exact ⟨j, by omega, hj2, hj3⟩
    · rintro ⟨j, hj1, hj2, hj3⟩
      rcases Nat.eq_or_lt_of_le hj1 with rfl | hlt
      · rw [hj3] at hfi; cases hfi
      · exact hiff.mpr ⟨j, by omega, hj2, hj3⟩
  · intro hd
    obtain ⟨h1, h2⟩ := hfirst hd
    refine ⟨h1, fun j hj1 hj2 => ?_⟩
    rcases Nat.eq_or_lt_of_le hj1 with rfl | hlt
    · exact hfi
    · exact h2 j (by omega) hj2
  · rintro ⟨j, hj1, hj2, hj3⟩
    rcases Nat.eq_or_lt_of_le hj1 with rfl | hlt
    · rw [hj3] at hfi; cases hfi
    · exact hex ⟨j, by omega, hj2, hj3⟩
  · intro hall _
    rcases Nat.eq_zero_or_pos rem with hr | hr
    · obtain ⟨h1, _⟩ := hzero hr
      rw [h1, hst3s, hst3a]
      exact ⟨rfl, by omega⟩
    · exact hfail (fun j hj1 hj2 => hall j (by omega) hj2) (by omega)
  · by_cases hc : i < n - 1
    · rw [if_pos hc, hsl]
      have h2A : i + 2 ≤ r.1.attempts := hmore (by omega)
      rw [show r.1.attempts - 1 - i = (r.1.attempts - 1 - (i + 1)) + 1 from by omega]
      rfl
    · rw [if_neg hc]
      have hr : rem = 0 := by omega
      obtain ⟨h1, h2⟩ := hzero hr
      rw [h2, h1, hst3a]
      rw [show i + 1 - 1 - i = 0 from by omega]
      rfl

/-- The retry loop meets its guarantee, by induction on the remaining
turns of for attempt in range(retry_count). -/
theorem webhookLoop_spec (outcomes : ℕ → AttemptOutcome) (n delay : ℕ) :
    ∀ (rem i : ℕ) (st : DeliveryState),
      i + rem = n → st.attempts = i → st.status ≠ "delivered" →
      LoopOut n delay i outcomes st rem
        (webhookLoop outcomes n delay rem i st) := by
  intro rem
  induction rem with
  | zero =>
    intro i st hin hat hnd
    dsimp only [webhookLoop, LoopOut]
    refine ⟨⟨by omega, by omega⟩, fun h => absurd rfl h, fun _ => ⟨rfl, rfl⟩,
      fun h => absurd rfl h, ?_, fun hd => absurd hd hnd, ?_,
      fun _ h => absurd rfl h, ?_⟩
    · constructor
      · intro hd; exact absurd hd hnd
      · rintro ⟨j, hj1, hj2, _⟩; rw [hat] at hj2; omega
    · rintro ⟨j, hj1, hj2, _⟩; omega
    · rw [hat, show i - 1 - i = 0 from by omega]; rfl
  | succ rem ih =>
    intro i st hin hat hnd
    cases ho : outcomes i with
    | http code body =>
      by_cases hs : isSuccessCode code
      · rw [show webhookLoop outcomes n delay (rem + 1) i st =
            (⟨"delivered", i + 1, some code,
              if body = "" then none else some (body.take 500)⟩, []) from by
          simp only [webhookLoop, ho]; rw [if_pos hs]]
        dsimp only [LoopOut]
        refine ⟨⟨by omega, by omega⟩, fun _ => le_refl _,
          fun h => absurd h (by omega), fun _ => Or.inl rfl, ?_, ?_,
          fun _ => rfl, ?_, ?_⟩
        · constructor
          · intro _
            exact ⟨i, le_refl i, by omega, by rw [ho]; exact hs⟩
          · intro _; rfl
        · intro _
          refine ⟨by rw [show i + 1 - 1 = i from by omega, ho]; exact hs,
            fun j hj1 hj2 => by omega⟩
        · intro hall _
          exact absurd (hall i (le_refl i) (by omega))
            (by rw [ho]; simp [isSuccessOutcome, hs])
        · rw [show i + 1 - 1 - i = 0 from by omega]; rfl
      · have hrec := ih (i + 1)
          ⟨"retrying", i + 1, some code,
            if body = "" then none else some (body.take 500)⟩
          (by omega) rfl ((by decide : ("retrying" : String) ≠ "delivered"))
        rw [show webhookLoop outcomes n delay (rem + 1) i st =
            (if i < n - 1 then
              ((webhookLoop outcomes n delay rem (i + 1)
                ⟨"retrying", i + 1, some code,
                  if body = "" then none else some (body.take 500)⟩).1,
               delay ::
                (webhookLoop outcomes n delay rem (i + 1)
                  ⟨"retrying", i + 1, some code,
                    if body = "" then none else some (body.take 500)⟩).2)
            else
              webhookLoop outcomes n delay rem (i + 1)
                ⟨"retrying", i + 1, some code,
                  if body = "" then none else some (body.take 500)⟩) from by
          simp only [webhookLoop, ho]; rw [if_neg hs]]
        exact failCont n delay i rem outcomes st _ _ hin
          (by rw [ho]; simpa using hs) rfl rfl hrec
    | transportError msg =>
      have hrec := ih (i + 1)
        ⟨"retrying", i + 1, st.response_code, some (msg.take 500)⟩
        (by omega) rfl ((by decide : ("retrying" : String) ≠ "delivered"))
      rw [show webhookLoop outcomes n delay (rem + 1) i st =
          (if i < n - 1 then
            ((webhookLoop outcomes n delay rem (i + 1)
              ⟨"retrying", i + 1, st.response_code, some (msg.take 500)⟩).1,
             delay ::
              (webhookLoop outcomes n delay rem (i + 1)
                ⟨"retrying", i + 1, st.response_code, some (msg.take 500)⟩).2)
          else
            webhookLoop outcomes n delay rem (i + 1)
              ⟨"retrying", i + 1, st.response_code, some (msg.take 500)⟩) from by
        simp only [webhookLoop, ho]]
      exact failCont n delay i rem outcomes st _ _ hin (by rw [ho]; rfl) rfl rfl
        hrec

/-- C6: with retry_count n at least 1, send_webhook makes at most n
attempts; the final status is delivered or failed; it is delivered
exactly when some attempt got HTTP 200, 201, 202 or 204, in which case
the successful attempt is the last one recorded and every earlier
attempt was unsuccessful (so no attempt follows a success); when some
of the first n outcomes is a success the delivery succeeds, and when
all n are failures the status is failed with exactly n attempts; the
sleeps executed are exactly attempts - 1 pauses of retry_delay_seconds,
so none follows the final attempt. -/
theorem claim_C6_webhook_retry (cfg : WebhookConfigM) (outcomes : ℕ → AttemptOutcome)
    (hn : 1 ≤ cfg.retry_count) :
    (send_webhook cfg outcomes).1.attempts ≤ cfg.retry_count ∧
    ((send_webhook cfg outcomes).1.status = "delivered" ∨
      (send_webhook cfg outcomes).1.status = "failed") ∧
    ((send_webhook cfg outcomes).1.status = "delivered" ↔
      ∃ j, j < (send_webhook cfg outcomes).1.attempts ∧
        isSuccessOutcome (outcomes j) = true) ∧
    ((send_webhook cfg outcomes).1.status = "delivered" →
      isSuccessOutcome (outcomes ((send_webhook cfg outcomes).1.attempts - 1)) = true ∧
      ∀ j, j < (send_webhook cfg outcomes).1.attempts - 1 →
        isSuccessOutcome (outcomes j) = false) ∧
    ((∃ j, j < cfg.retry_count ∧ isSuccessOutcome (outcomes j) = true) →
      (send_webhook cfg outcomes).1.status = "delivered") ∧
    ((∀ j, j < cfg.retry_count → isSuccessOutcome (outcomes j) = false) →
      (send_webhook cfg outcomes).1.status = "failed" ∧
      (send_webhook cfg outcomes).1.attempts = cfg.retry_count) ∧
    (send_webhook cfg outcomes).2 =
      List.replicate ((send_webhook cfg outcomes).1.attempts - 1)
        cfg.retry_delay_seconds := by
  have h := webhookLoop_spec outcomes cfg.retry_count cfg.retry_delay_seconds
    cfg.retry_count 0 ⟨"pending", 0, none, none⟩ (by omega) rfl (by decide)
  obtain ⟨⟨_, ha2⟩, _, _, hdel_or, hiff, hfirst, hex, hfail, hsl⟩ := h
  have hOr := hdel_or (by omega)
  have ea : (send_webhook cfg outcomes).1.attempts =
      (webhookLoop outcomes cfg.retry_count cfg.retry_delay_seconds
        cfg.retry_count 0 ⟨"pending", 0, none, none⟩).1.attempts := rfl
  have es : (send_webhook cfg outcomes).1.status =
      (if (webhookLoop outcomes cfg.retry_count cfg.retry_delay_seconds
          cfg.retry_count 0 ⟨"pending", 0, none, none⟩).1.status = "retrying"
        then "failed"
        else (webhookLoop outcomes cfg.retry_count cfg.retry_delay_seconds
          cfg.retry_count 0 ⟨"pending", 0, none, none⟩).1.status) := rfl
  have e2 : (send_webhook cfg outcomes).2 =
      (webhookLoop outcomes cfg.retry_count cfg.retry_delay_seconds
        cfg.retry_count 0 ⟨"pending", 0, none, none⟩).2 := rfl
  rw [ea, es, e2]
  rcases hOr with hD | hR
  · rw [hD]
    rw [if_neg (by decide : ¬("delivered" : String) = "retrying")]
    refine ⟨ha2, Or.inl rfl, ?_, ?_, fun _ => rfl, ?_, ?_⟩
    · constructor
      · intro _
        obtain ⟨j, hj0, hj1, hj2⟩ := hiff.mp hD
        exact ⟨j, hj1, hj2⟩
      · intro _; rfl
    · intro _
      obtain ⟨h1, h2⟩ := hfirst hD
      exact ⟨h1, fun j hj => h2 j (by omega) hj⟩
    · intro hall
      obtain ⟨hst, _⟩ := hfail (fun j _ hj => hall j hj) (by omega)
      rw [hD] at hst
      exact absurd hst (by decide)
    · rw [hsl, Nat.sub_zero]
  · rw [hR]
    rw [if_pos rfl]
    refine ⟨ha2, Or.inr rfl, ?_, ?_, ?_, ?_, ?_⟩
    · constructor
      · intro h; exact absurd h (by decide)
      · rintro ⟨j, hj1, hj2⟩
        have hc := hiff.mpr ⟨j, by omega, hj1, hj2⟩
        rw [hR] at hc
        exact absurd hc (by decide)
    · intro h; exact absurd h (by decide)
    · rintro ⟨j, hj1, hj2⟩
      have hc := hex ⟨j, by omega, hj1, hj2⟩
      rw [hR] at hc
      exact absurd hc (by decide)
    · intro hall
      obtain ⟨_, h2⟩ := hfail (fun j _ hj => hall j hj) (by omega)
      exact ⟨rfl, h2⟩
    · rw [hsl, Nat.sub_zero]

/-- A subscriber answering 500, 500, then 200. -/
def outcomes500x2 : ℕ → AttemptOutcome := fun i =>
  if i < 2 then .http 500 "Internal Server Error" else .http 200 "ok"

/-- A webhook subscription with the default retry policy (3 attempts,
60 second delay). -/
def cfg3 : WebhookConfigM :=
  { id := "healthflow-main", name := "HealthFlow Unified System"
  , url := "https://example.test/webhook", secret := "s", events := [] }

/-- C6 witness: on the 500, 500, 200 subscriber with retry_count 3,
exactly three attempts are recorded, the status is delivered, and two
60-second sleeps happened between the attempts. -/
theorem claim_C6_webhook_retry_witness :
    (send_webhook cfg3 outcomes500x2).1.attempts = 3 ∧
    (send_webhook cfg3 outcomes500x2).1.status = "delivered" ∧
    (send_webhook cfg3 outcomes500x2).2 = [60, 60] ∧
    ((send_webhook cfg3 outcomes500x2).1.attempts ≤ cfg3.retry_count ∧
      ((send_webhook cfg3 outcomes500x2).1.status = "delivered" ∨
        (send_webhook cfg3 outcomes500x2).1.status = "failed") ∧
      ((send_webhook cfg3 outcomes500x2).1.status = "delivered" ↔
        ∃ j, j < (send_webhook cfg3 outcomes500x2).1.attempts ∧
          isSuccessOutcome (outcomes500x2 j) = true) ∧
      ((send_webhook cfg3 outcomes500x2).1.status = "delivered" →
        isSuccessOutcome
          (outcomes500x2 ((send_webhook cfg3 outcomes500x2).1.attempts - 1)) = true ∧
        ∀ j, j < (send_webhook cfg3 outcomes500x2).1.attempts - 1 →
          isSuccessOutcome (outcomes500x2 j) = false) ∧
      ((∃ j, j < cfg3.retry_count ∧ isSuccessOutcome (outcomes500x2 j) = true) →
        (send_webhook cfg3 outcomes500x2).1.status = "delivered") ∧
      ((∀ j, j < cfg3.retry_count → isSuccessOutcome (outcomes500x2 j) = false) →
        (send_webhook cfg3 outcomes500x2).1.status = "failed" ∧
        (send_webhook cfg3 outcomes500x2).1.attempts = cfg3.retry_count) ∧
      (send_webhook cfg3 outcomes500x2).2 =
        List.replicate ((send_webhook cfg3 outcomes500x2).1.attempts - 1)
          cfg3.retry_delay_seconds) :=
  ⟨by decide, by decide, by decide, claim_C6_webhook_retry cfg3 outcomes500x2 (by decide)⟩

/-! ## Claim C5
check_pair iterates the Cartesian product of the two identifier sets
with a checked-set that skips a pair when either orientation was
already processed; each surviving pair contributes one interaction per
rule-index direction.  The multiset of emitted interactions is shown
symmetric in the two medications up to swapping the drug1/drug2 slots
of each record, for arbitrary identifier lists - so the unspecified
iteration order of the CPython sets cannot break it. -/

/-- Swap the two drug slots of an interaction record. -/
def swapInter (x : DrugInteraction) : DrugInteraction :=
  { x with
    drug1_id := x.drug2_id
    drug2_id := x.drug1_id
    drug1_name := x.drug2_name
    drug2_name := x.drug1_name }

/-- Swapping the slots of the emission for (m2, m1) gives the emission
for (m1, m2). -/
theorem swapInter_mk (m1 m2 : Medication) (r : DDIRule) :
    swapInter (mkInteraction m2 m1 r) = mkInteraction m1 m2 r := rfl

/-- Orientation-canonical form of an identifier pair. -/
def canonPair (p : String × String) : String × String :=
  if p.1 ≤ p.2 then p else (p.2, p.1)

/-- canonPair ignores orientation. -/
theorem canonPair_swap (x y : String) : canonPair (x, y) = canonPair (y, x) := by
  unfold canonPair
  by_cases h1 : x ≤ y
  · by_cases h2 : y ≤ x
    · have hxy : x = y := le_antisymm h1 h2
      subst hxy; rfl
    · show (if x ≤ y then (x, y) else (y, x)) = if y ≤ x then (y, x) else (x, y)
      rw [if_pos h1, if_neg h2]
  · have h2 : y ≤ x := le_of_not_le h1
    show (if x ≤ y then (x, y) else (y, x)) = if y ≤ x then (y, x) else (x, y)
    rw [if_neg h1, if_pos h2]

/-- canonPair returns the pair or its swap. -/
theorem canonPair_cases (p : String × String) :
    canonPair p = p ∨ canonPair p = (p.2, p.1) := by
  unfold canonPair
  by_cases h : p.1 ≤ p.2
  · left; rw [if_pos h]
  · right; rw [if_neg h]

/-- Two pairs share a canonical form exactly when they are equal up to
orientation. -/
theorem canonPair_eq_iff (p q : String × String) :
    canonPair p = canonPair q ↔ (p = q ∨ p = (q.2, q.1)) := by
  constructor
  · intro h
    rcases canonPair_cases p with hp | hp <;> rcases canonPair_cases q with hq | hq
    · left; rw [← hp, h, hq]
    · right; rw [← hp, h, hq]
    · -- (p.2, p.1) = canonPair p = canonPair q = q
      have hpq : (p.2, p.1) = q := by rw [← hp, h, hq]
      right
      have h1 : p.2 = q.1 := congrArg Prod.fst hpq
      have h2 : p.1 = q.2 := congrArg Prod.snd hpq
      calc p = (p.1, p.2) := rfl
        _ = (q.2, q.1) := by rw [h1, h2]
    · have hpq : (p.2, p.1) = (q.2, q.1) := by rw [← hp, h, hq]
      left
      have h1 : p.2 = q.2 := congrArg Prod.fst hpq
      have h2 : p.1 = q.1 := congrArg Prod.snd hpq
      calc p = (p.1, p.2) := rfl
        _ = (q.1, q.2) := by rw [h1, h2]
        _ = q := rfl
  · rintro (rfl | h)
    · rfl
    · rw [h]
      exact canonPair_swap q.2 q.1

/-- The skip test of the checked-set loop, phrased canonically. -/
theorem mem_canon_iff (x y : String) (c : List (String × String)) :
    canonPair (x, y) ∈ c.map canonPair ↔ ((x, y) ∈ c ∨ (y, x) ∈ c) := by
  rw [List.mem_map]
  constructor
  · rintro ⟨p, hp, hpe⟩
    rcases (canonPair_eq_iff p (x, y)).mp hpe with h | h
    · left; rw [← h]; exact hp
    · right; rw [show (y, x) = p from h.symm]; exact hp
  · rintro (h | h)
    · exact ⟨(x, y), h, rfl⟩
    · exact ⟨(y, x), h, canonPair_swap y x⟩

/-- Per-key emissions for the two call orders differ by a slot swap. -/
theorem hitsKey_swap (m1 m2 : Medication) (k : String × String) :
    hitsKey m1 m2 k = (hitsKey m2 m1 k).map swapInter := by
  unfold hitsKey
  cases ddiRulesAt k with
  | nil => rfl
  | cons r rest => simp [swapInter_mk]

/-- The multiset one identifier pair contributes. -/
def mcontrib (m1 m2 : Medication) (u : String × String) :
    Multiset DrugInteraction :=
  (hitsPair m1 m2 u.1 u.2 : List DrugInteraction)

/-- The contribution of a pair only depends on its canonical form. -/
theorem mcontrib_of_canon (m1 m2 : Medication) (x y : String) :
    (↑(hitsPair m1 m2 x y) : Multiset DrugInteraction) =
      mcontrib m1 m2 (canonPair (x, y)) := by
  unfold mcontrib canonPair
  by_cases h : x ≤ y
  · rw [if_pos h]
  · rw [if_neg h]
    show (↑(hitsPair m1 m2 x y) : Multiset DrugInteraction) = ↑(hitsPair m1 m2 y x)
    unfold hitsPair
    rw [← Multiset.coe_add, ← Multiset.coe_add, add_comm]

/-- Contributions for the two call orders differ by a slot swap. -/
theorem mcontrib_swap (m1 m2 : Medication) (u : String × String) :
    mcontrib m1 m2 u = Multiset.map swapInter (mcontrib m2 m1 u) := by
  unfold mcontrib hitsPair
  rw [hitsKey_swap m1 m2 (u.1, u.2), hitsKey_swap m1 m2 (u.2, u.1)]
  simp

/-- The checked-set loop emits, as a multiset, one contribution per
canonical pair of the sequence not already checked. -/
theorem dedupLoop_multiset (m1 m2 : Medication) :
    ∀ (seq c : List (String × String)),
      (↑(dedupLoop m1 m2 seq c) : Multiset DrugInteraction) =
        ∑ u ∈ ((seq.map canonPair).toFinset \ (c.map canonPair).toFinset),
          mcontrib m1 m2 u := by
  intro seq
  induction seq with
  | nil => intro c; simp [dedupLoop]
  | cons p rest ih =>
    intro c
    obtain ⟨x, y⟩ := p
    by_cases hmem : (x, y) ∈ c ∨ (y, x) ∈ c
    · rw [show dedupLoop m1 m2 ((x, y) :: rest) c = dedupLoop m1 m2 rest c from by
        simp [dedupLoop, hmem]]
      rw [ih c]
      congr 1
      rw [List.map_cons, List.toFinset_cons]
      exact (Finset.insert_sdiff_of_mem _
        (List.mem_toFinset.mpr ((mem_canon_iff x y c).mpr hmem))).symm
    · rw [show dedupLoop m1 m2 ((x, y) :: rest) c =
          hitsPair m1 m2 x y ++ dedupLoop m1 m2 rest ((x, y) :: c) from by
        simp [dedupLoop, hmem]]
      have hnotc : canonPair (x, y) ∉ (c.map canonPair).toFinset := by
        rw [List.mem_toFinset]
        intro hc
        exact hmem ((mem_canon_iff x y c).mp hc)
      rw [← Multiset.coe_add]
      rw [ih ((x, y) :: c)]
      rw [List.map_cons, List.toFinset_cons, List.map_cons, List.toFinset_cons]
      rw [Finset.insert_sdiff_of_not_mem _ hnotc]
      rw [Finset.sdiff_insert]
      rw [mcontrib_of_canon m1 m2 x y]
      by_cases hu : canonPair (x, y) ∈
          (rest.map canonPair).toFinset \ (c.map canonPair).toFinset
      · rw [Finset.insert_eq_self.mpr hu]
        exact Finset.add_sum_erase _ _ hu
      · rw [Finset.erase_eq_of_not_mem hu, Finset.sum_insert hu]

/-- Membership in the Cartesian product sequence. -/
theorem pairSeq_mem (l1 l2 : List String) (x y : String) :
    (x, y) ∈ pairSeq l1 l2 ↔ x ∈ l1 ∧ y ∈ l2 := by
  induction l1 with
  | nil => simp [pairSeq]
  | cons a as ih =>
    rw [show pairSeq (a :: as) l2 = l2.map (fun y => (a, y)) ++ pairSeq as l2
      from rfl]
    rw [List.mem_append, List.mem_map]
    constructor
    · rintro (⟨y', hy', he⟩ | h)
      · have h1 : a = x := congrArg Prod.fst he
        have h2 : y' = y := congrArg Prod.snd he
        subst h1
        subst h2
        exact ⟨List.mem_cons_self a as, hy'⟩
      · obtain ⟨h1, h2⟩ := ih.mp h
        exact ⟨List.mem_cons_of_mem _ h1, h2⟩
    · rintro ⟨h1, h2⟩
      rcases List.mem_cons.mp h1 with rfl | h1'
      · exact Or.inl ⟨y, h2, rfl⟩
      · exact Or.inr (ih.mpr ⟨h1', h2⟩)

/-- The canonical pair sets of the two call orders coincide. -/
theorem canonSet_comm (l1 l2 : List String) :
    ((pairSeq l1 l2).map canonPair).toFinset =
      ((pairSeq l2 l1).map canonPair).toFinset := by
  ext u
  simp only [List.mem_toFinset, List.mem_map]
  constructor
  · rintro ⟨⟨x, y⟩, hp, rfl⟩
    obtain ⟨h1, h2⟩ := (pairSeq_mem l1 l2 x y).mp hp
    exact ⟨(y, x), (pairSeq_mem l2 l1 y x).mpr ⟨h2, h1⟩, canonPair_swap y x⟩
  · rintro ⟨⟨x, y⟩, hp, rfl⟩
    obtain ⟨h1, h2⟩ := (pairSeq_mem l2 l1 x y).mp hp
    exact ⟨(y, x), (pairSeq_mem l1 l2 y x).mpr ⟨h2, h1⟩, canonPair_swap y x⟩

/-- check_pair is symmetric as a multiset up to slot swap. -/
theorem check_pair_symm (m1 m2 : Medication) :
    (↑(check_pair m1 m2) : Multiset DrugInteraction) =
      Multiset.map swapInter ↑(check_pair m2 m1) := by
  unfold check_pair
  rw [dedupLoop_multiset, dedupLoop_multiset]
  simp only [List.map_nil, List.toFinset_nil, Finset.sdiff_empty]
  rw [canonSet_comm (get_identifiers m2) (get_identifiers m1)]
  rw [show Multiset.map swapInter
      (∑ u ∈ ((pairSeq (get_identifiers m1) (get_identifiers m2)).map
        canonPair).toFinset, mcontrib m2 m1 u) =
      ∑ u ∈ ((pairSeq (get_identifiers m1) (get_identifiers m2)).map
        canonPair).toFinset, Multiset.map swapInter (mcontrib m2 m1 u) from
    map_sum (Multiset.mapAddMonoidHom swapInter) _ _]
  exact Finset.sum_congr rfl (fun u _ => mcontrib_swap m1 m2 u)

/-- C5: for every catalog and every pair of medication ids, the
interactions of validate_medication_pair for (a, b) and for (b, a) are
the same collection under order-insensitive equality: equal as
multisets (list order ignored) once the drug1/drug2 slots of each
record are swapped.  Stated for all ids, which covers in particular
every pair present in the catalog. -/
theorem claim_C5_pair_symmetric (db : DrugDB) (a b : ℤ) :
    (↑(validate_medication_pair db a b) : Multiset DrugInteraction) =
      Multiset.map swapInter ↑(validate_medication_pair db b a) := by
  unfold validate_medication_pair
  cases h1 : get_by_id db a with
  | none => cases h2 : get_by_id db b <;> simp
  | some m1 =>
    cases h2 : get_by_id db b with
    | none => simp
    | some m2 => exact check_pair_symm m1 m2

end MedEngine
